import Mathlib

/-
  Verification of the Speed Tune content-script controller
  (src/content.js, class SpeedTuneController) against its
  natural-language specification.

  Modelling conventions (shallow embedding):
  * JavaScript numbers are modelled as exact rationals (ℚ); `Math.round`
    is `⌊x + 1/2⌋` (JS rounds half toward +∞), `Math.max`/`Math.min` are
    `max`/`min`, and the numeric-truthiness idiom `x || d` is
    `if x = 0 then d else x`.
  * DOM video elements are identified by a `VideoId : ℕ`.  The host DOM is a
    `Page`: the (deduplicated-on-read) list of elements that
    `getAllVideos()` enumerates, a per-element attribute record (geometry,
    readyState, paused, …), the mutable per-element `playbackRate`, the
    viewport size, and the tab-visibility flag.  Property access that the
    source wraps in try/catch is modelled by an `accessFails` attribute:
    when it is set the wrapped read yields the catch-branch result.
  * The controller instance is a `Ctrl` record holding every `this.*` field
    that the verified operations read or write.  Timers, observers and
    listener registrations are modelled by presence flags / key lists;
    interval and timeout *callbacks* are modelled as explicit step
    functions (e.g. `speedCheckTick` is one firing of the 500 ms interval
    from `startGlobalSpeedCheck`), and the 100 ms delayed correction of the
    `ratechange` handler is modelled as the composition of the scheduling
    test with the delayed write.
  * The DOM node the indicator overlay creates is counted by
    `overlayCount` (number of `.speed-tune-constant-indicator` nodes
    attached to `document.body`), so "two overlays never coexist" is a
    real property of the model, not a structural triviality.
-/

namespace SpeedTune

/-- JS `Math.round`: round half toward +∞. -/
def jsRound (q : ℚ) : ℤ := ⌊q + 1/2⌋

/-- `Math.round(speed * 100) / 100` from `setSpeed`. -/
def round2 (q : ℚ) : ℚ := (jsRound (q * 100) : ℚ) / 100

/-- `Math.max(0.1, Math.min(16, x))` from `setSpeed`. -/
def clampSpeed (q : ℚ) : ℚ := max (1/10) (min 16 q)

/-- JS numeric `x || d` (0 is falsy). -/
def jsOr (q d : ℚ) : ℚ := if q = 0 then d else q

abbrev VideoId := ℕ

/-- Host-DOM attributes of one media element, as read by the controller.
`accessFails` models an element whose property reads throw (cross-origin /
mid-navigation); the source wraps such reads in try/catch. -/
structure VideoAttrs where
  /-- `document.contains(v)` for the top document. -/
  inDoc : Bool
  /-- `v.ownerDocument === document`. -/
  mainDoc : Bool
  ended : Bool
  readyState : ℕ
  paused : Bool
  currentTime : ℚ
  /-- `v.duration === Infinity`. -/
  live : Bool
  rectLeft : ℚ
  rectTop : ℚ
  rectWidth : ℚ
  rectHeight : ℚ
  accessFails : Bool
deriving DecidableEq, Repr

/-- The host page: the sequence of elements discovery enumerates (in
first-seen order), their attributes, the mutable playback rates, the
viewport, and `document.visibilityState === "hidden"`. -/
structure Page where
  dom : List VideoId
  attrs : VideoId → VideoAttrs
  rate : VideoId → ℚ
  innerWidth : ℚ
  innerHeight : ℚ
  hidden : Bool

/-- `video.playbackRate = q` on element `v`. -/
def setRate (p : Page) (v : VideoId) (q : ℚ) : Page :=
  { p with rate := fun w => if w = v then q else p.rate w }

/-- `getAllVideos()`: merged defensive enumeration, deduplicated by
`[...new Set(videos)]`.  `Page.dom` is documented as the duplicate-free
first-seen-ordered enumeration, on which `List.dedup` is the identity, so
this agrees with the JS `Set` semantics on the modelled pages. -/
def getAllVideos (p : Page) : List VideoId := p.dom.dedup

/-- `isInMainDocument(video)`: `video.ownerDocument === document`,
false on access failure. -/
def isInMainDocument (p : Page) (v : VideoId) : Bool :=
  !(p.attrs v).accessFails && (p.attrs v).mainDoc

/-- `isLiveVideo(video)`: requires `document.contains(video)` and
`duration === Infinity`; false on access failure. -/
def isLiveVideo (p : Page) (v : VideoId) : Bool :=
  !(p.attrs v).accessFails && ((p.attrs v).inDoc && (p.attrs v).live)

/-- `isLikelyMainPlayer(video)`: in document, not ended,
`readyState >= 2`, and not paused at `currentTime` 0; false on access
failure. -/
def isLikelyMainPlayer (p : Page) (v : VideoId) : Bool :=
  !(p.attrs v).accessFails &&
  ((p.attrs v).inDoc &&
   (!(p.attrs v).ended &&
    (decide (2 ≤ (p.attrs v).readyState) &&
     !((p.attrs v).paused && decide ((p.attrs v).currentTime = 0)))))

/-- `MAIN_VIDEO_MIN_SIZE.width` (380). -/
def mainMinWidth : ℚ := 380

/-- `MAIN_VIDEO_MIN_SIZE.height` (214). -/
def mainMinHeight : ℚ := 214

/-- The filter body of `getCandidateVideos`: main document, not live, not
ended, and bounding box at least 380×214 (rect read is try/catch-guarded). -/
def isCandidate (p : Page) (v : VideoId) : Bool :=
  isInMainDocument p v && (!isLiveVideo p v && (!(p.attrs v).ended &&
    (!(p.attrs v).accessFails &&
     (decide (mainMinWidth ≤ (p.attrs v).rectWidth) &&
      decide (mainMinHeight ≤ (p.attrs v).rectHeight)))))

/-- `getCandidateVideos()`. -/
def getCandidateVideos (p : Page) : List VideoId :=
  (getAllVideos p).filter (isCandidate p)

/-- `r.width * r.height` of `getBoundingClientRect()`. -/
def videoArea (p : Page) (v : VideoId) : ℚ :=
  (p.attrs v).rectWidth * (p.attrs v).rectHeight

/-- The reducer of `selectPrimaryVideo`:
`ar.width * ar.height > br.width * br.height ? a : b`. -/
def pickLarger (p : Page) (a b : VideoId) : VideoId :=
  if videoArea p b < videoArea p a then a else b

/-- The pool `selectPrimaryVideo` reduces over: the `isLikelyMainPlayer`
subset when non-empty, otherwise all candidates. -/
def selectionPool (p : Page) : List VideoId :=
  let c := getCandidateVideos p
  let m := c.filter (isLikelyMainPlayer p)
  if m.isEmpty then c else m

/-- `selectPrimaryVideo()`: null on no candidates, otherwise
`pool.reduce((a, b) => area a > area b ? a : b)`.  (The pool is empty
exactly when the candidate list is.) -/
def selectPrimaryVideo (p : Page) : Option VideoId :=
  match selectionPool p with
  | [] => none
  | a :: t => some (t.foldl (pickLarger p) a)

/-- `shouldShowIndicatorForVideo(v)`: in document, enough data, playback
intent, and bounding box intersecting the viewport (rect read guarded). -/
def shouldShowIndicatorForVideo (p : Page) (v : VideoId) : Bool :=
  (p.attrs v).inDoc &&
  (decide (2 ≤ (p.attrs v).readyState) &&
   (!((p.attrs v).paused && decide ((p.attrs v).currentTime = 0)) &&
    (!(p.attrs v).accessFails &&
     (decide (0 < (p.attrs v).rectLeft + (p.attrs v).rectWidth) &&
      (decide ((p.attrs v).rectLeft < p.innerWidth) &&
       (decide (0 < (p.attrs v).rectTop + (p.attrs v).rectHeight) &&
        decide ((p.attrs v).rectTop < p.innerHeight)))))))

/-- The controller instance (`this.*` fields of `SpeedTuneController`).
Interval/timeout handles are presence flags; `videoListeners` is the key
list of the per-video listener map (insertion order); `videos` is the
tracked `Set` (insertion order); `constantIndicator` holds the speed the
overlay node displays; `overlayCount` counts indicator nodes attached to
`document.body`; `popupToastPendingRemoval` models the 300 ms removal
timeout `hidePopupToast` schedules. -/
structure Ctrl where
  currentSpeed : ℚ
  videos : List VideoId
  constantIndicator : Option ℚ
  updateHandlers : ℕ
  indicatorPrimaryVideo : Option VideoId
  indicatorRecomputeInterval : Bool
  lastIndicatorHideTime : ℕ
  popupToast : Option ℚ
  popupToastPendingRemoval : Bool
  popupToastTimeout : Bool
  showConstantIndicator : Bool
  indicatorPosition : String
  saveSpeedEnabled : Bool
  debounceTimer : Bool
  speedCheckInterval : Bool
  scanInterval : Bool
  videoListeners : List VideoId
  observer : Bool
  urlChangeObserver : Bool
  registeredOnWindow : Bool
  overlayCount : ℕ
deriving DecidableEq, Repr

/-- The constructor's field initialisation (before `init()` runs). -/
def Ctrl.initial : Ctrl :=
  { currentSpeed := 1
    videos := []
    constantIndicator := none
    updateHandlers := 0
    indicatorPrimaryVideo := none
    indicatorRecomputeInterval := false
    lastIndicatorHideTime := 0
    popupToast := none
    popupToastPendingRemoval := false
    popupToastTimeout := false
    showConstantIndicator := true
    indicatorPosition := "top-left"
    saveSpeedEnabled := false
    debounceTimer := false
    speedCheckInterval := false
    scanInterval := false
    videoListeners := []
    observer := false
    urlChangeObserver := false
    registeredOnWindow := false
    overlayCount := 0 }

/-- `Set.add` (insertion-ordered, no duplicates). -/
def addVideo (vs : List VideoId) (v : VideoId) : List VideoId :=
  if v ∈ vs then vs else vs ++ [v]

/-- `hideConstantIndicator()`: early return when no overlay; otherwise
clear the reconciliation interval, record the hide time, drop the node
(`el.remove()`), detach the scroll/resize handlers, and null the primary
reference. -/
def hideConstantIndicator (now : ℕ) (st : Ctrl) : Ctrl :=
  if st.constantIndicator.isNone then st
  else
    { st with
      indicatorRecomputeInterval := false
      lastIndicatorHideTime := now
      constantIndicator := none
      updateHandlers := 0
      indicatorPrimaryVideo := none
      overlayCount := st.overlayCount - 1 }

/-- `hidePopupToast()`: if a toast exists, start its fade and schedule its
removal 300 ms later (modelled by `popupToastPendingRemoval`); always clear
the fade timeout.  The toast node itself is removed only when the delayed
callback runs, so `popupToast` is not nulled here — exactly as in the
source. -/
def hidePopupToast (st : Ctrl) : Ctrl :=
  let st1 :=
    if st.popupToast.isSome then { st with popupToastPendingRemoval := true } else st
  { st1 with popupToastTimeout := false }

/-- `createConstantIndicator(video)`: no-op when the indicator is disabled;
otherwise build the `.speed-tune-constant-indicator` node showing
`currentSpeed`, cache `video` as the primary, append the node to
`document.body`, register one scroll/resize update handler, and start the
800 ms reconciliation interval. -/
def createConstantIndicator (st : Ctrl) (v : VideoId) : Ctrl :=
  if !st.showConstantIndicator then st
  else
    { st with
      constantIndicator := some st.currentSpeed
      indicatorPrimaryVideo := some v
      overlayCount := st.overlayCount + 1
      updateHandlers := st.updateHandlers + 1
      indicatorRecomputeInterval := true }

/-- `this.indicatorPrimaryVideo || this.selectPrimaryVideo()`. -/
def activeVideo (st : Ctrl) (p : Page) : Option VideoId :=
  match st.indicatorPrimaryVideo with
  | some v => some v
  | none => selectPrimaryVideo p

/-- `showConstantSpeedIndicator()`: bail out (hiding) when disabled, when
no primary exists, or when the primary fails the display predicate;
otherwise refresh the existing overlay in place or create a new one.  (The
source re-checks `showConstantIndicator` inside both branches; those
re-checks are true here because the top guard already passed.) -/
def showConstantSpeedIndicator (now : ℕ) (st : Ctrl) (p : Page) : Ctrl :=
  if !st.showConstantIndicator then hideConstantIndicator now st
  else
    match selectPrimaryVideo p with
    | none => hideConstantIndicator now st
    | some tv =>
      if !shouldShowIndicatorForVideo p tv then hideConstantIndicator now st
      else if st.constantIndicator.isSome then
        { st with indicatorPrimaryVideo := some tv, constantIndicator := some st.currentSpeed }
      else createConstantIndicator st tv

/-- `updateIndicators(isSpeedChange)`: hide everything when no videos exist
or the indicator toggle is off; otherwise hide the toast and show the
constant indicator. -/
def updateIndicators (now : ℕ) (st : Ctrl) (p : Page) : Ctrl :=
  if (getAllVideos p).isEmpty then hidePopupToast (hideConstantIndicator now st)
  else if !st.showConstantIndicator then hidePopupToast (hideConstantIndicator now st)
  else showConstantSpeedIndicator now (hidePopupToast st) p

/-- `setSpeed(speed, showConstantIndicator = true, position = "top-left")`:
round, clamp, store; update the indicator settings (hiding immediately if
the indicator was just disabled); apply the rate to the active video only;
re-add all in-document videos to the tracked set; update indicators. -/
def setSpeed (now : ℕ) (st0 : Ctrl) (p : Page) (speed : ℚ)
    (showInd : Bool) (position : String) : Ctrl × Page :=
  let roundedSpeed := round2 speed
  let st1 := { st0 with currentSpeed := clampSpeed roundedSpeed }
  let indicatorWasEnabled := st1.showConstantIndicator
  let st2 := { st1 with showConstantIndicator := showInd, indicatorPosition := position }
  let st3 :=
    if indicatorWasEnabled && !showInd then hidePopupToast (hideConstantIndicator now st2)
    else st2
  let result :=
    match activeVideo st3 p with
    | some a =>
      if (p.attrs a).inDoc && !isLiveVideo p a then
        ({ st3 with videos := addVideo st3.videos a }, setRate p a st3.currentSpeed)
      else (st3, p)
    | none => (st3, p)
  let st4 := result.1
  let p4 := result.2
  let st5 :=
    { st4 with
      videos := (getAllVideos p4).foldl
        (fun vs v => if (p4.attrs v).inDoc then addVideo vs v else vs) st4.videos }
  (updateIndicators now st5 p4, p4)

/-- `getCurrentSpeed()`. -/
def getCurrentSpeed (st : Ctrl) : ℚ := st.currentSpeed

/-- JS default arguments of `setSpeed`: a call `setSpeed(r)` that omits the
optional parameters runs with `showConstantIndicator = true` and
`position = "top-left"`. -/
def setSpeedDefault (now : ℕ) (st : Ctrl) (p : Page) (speed : ℚ) : Ctrl × Page :=
  setSpeed now st p speed true "top-left"

/-- One firing of the 500 ms interval installed by `startGlobalSpeedCheck`:
re-apply `currentSpeed` to the active video only, and only when
`|(playbackRate || 1) - target| > 0.01`. -/
def speedCheckTick (st : Ctrl) (p : Page) : Page :=
  if p.hidden then p
  else
    match activeVideo st p with
    | none => p
    | some a =>
      if !(p.attrs a).inDoc || isLiveVideo p a then p
      else if 1/100 < |jsOr (p.rate a) 1 - st.currentSpeed| then
        setRate p a st.currentSpeed
      else p

/-- The per-video `applySpeed` listener (loadstart / canplay /
loadedmetadata / playing) registered in `findAndSetupVideos`. -/
def applySpeed (st : Ctrl) (p : Page) (v : VideoId) : Page :=
  if isLiveVideo p v then p
  else if activeVideo st p ≠ some v then p
  else if !(p.attrs v).inDoc then p
  else if !(p.attrs v).paused then setRate p v st.currentSpeed
  else p

/-- The scheduling test of the per-video `ratechange` listener: a delayed
correction is queued iff the video is not live, is the active video, and
`|(playbackRate || 1) - currentSpeed| > 0.01`. -/
def rateChangeSchedules (st : Ctrl) (p : Page) (v : VideoId) : Bool :=
  !isLiveVideo p v && (decide (activeVideo st p = some v) &&
    decide (1/100 < |jsOr (p.rate v) 1 - st.currentSpeed|))

/-- The body of the 100 ms `setTimeout` queued by the `ratechange`
listener. -/
def rateChangeDelayedWrite (st : Ctrl) (p : Page) (v : VideoId) : Page :=
  if (p.attrs v).inDoc && !(p.attrs v).paused then setRate p v st.currentSpeed else p

/-- The `ratechange` listener with its 100 ms delay collapsed: the delayed
write runs exactly when the listener scheduled it. -/
def onRateChange (st : Ctrl) (p : Page) (v : VideoId) : Page :=
  if rateChangeSchedules st p v then rateChangeDelayedWrite st p v else p

/-- The per-video `durationchange` listener: refresh indicators when the
video turned live.  It never touches any playback rate. -/
def onDurationChange (now : ℕ) (st : Ctrl) (p : Page) (v : VideoId) : Ctrl :=
  if !(p.attrs v).accessFails && (p.attrs v).live then updateIndicators now st p else st

/-- `removeVideoListeners(video)`: early return when the video has no
listener entry; otherwise detach its listeners and drop it from both the
listener map and the tracked set. -/
def removeVideoListeners (st : Ctrl) (v : VideoId) : Ctrl :=
  if v ∈ st.videoListeners then
    { st with
      videoListeners := st.videoListeners.erase v
      videos := st.videos.erase v }
  else st

/-- The per-video body of the main loop of `findAndSetupVideos` (carrying
`primary = selectPrimaryVideo()` computed once before the loop): skip
out-of-document elements; set up listeners and apply the rate for new
primary elements; for already-tracked primaries re-apply on > 0.01 drift. -/
def setupOneVideo (primary : Option VideoId) (acc : Ctrl × Page) (v : VideoId) :
    Ctrl × Page :=
  let st := acc.1
  let p := acc.2
  if !(p.attrs v).inDoc then (st, p)
  else if v ∉ st.videos then
    let st1 := { st with videos := st.videos ++ [v] }
    let p1 :=
      if !isLiveVideo p v && primary = some v then setRate p v st1.currentSpeed else p
    ({ st1 with videoListeners := addVideo st1.videoListeners v }, p1)
  else if !isLiveVideo p v && primary = some v then
    if (p.attrs v).inDoc && decide (1/100 < |jsOr (p.rate v) 1 - st.currentSpeed|) then
      (st, setRate p v st.currentSpeed)
    else (st, p)
  else (st, p)

/-- `findAndSetupVideos()`: prune stale tracked videos, select the primary
once, run the setup loop over every discovered video, then refresh (or
hide) the indicators. -/
def findAndSetupVideos (now : ℕ) (st0 : Ctrl) (p0 : Page) : Ctrl × Page :=
  let all := getAllVideos p0
  let st1 := st0.videos.foldl
    (fun s v => if !(p0.attrs v).inDoc then removeVideoListeners s v else s) st0
  let primary := selectPrimaryVideo p0
  let result := all.foldl (setupOneVideo primary) (st1, p0)
  if all.isEmpty then (hidePopupToast (hideConstantIndicator now result.1), result.2)
  else (updateIndicators now result.1 result.2, result.2)

/-- `switchActiveVideo(v)`: the single transition operation — no-op when
`v` is already primary, the indicator is disabled, or `v` is not a
candidate; otherwise detach the old overlay state, set the new primary,
apply the rate (unless live), and attach the new overlay. -/
def switchActiveVideo (now : ℕ) (st : Ctrl) (p : Page) (v : VideoId) : Ctrl × Page :=
  if st.indicatorPrimaryVideo = some v then (st, p)
  else if !st.showConstantIndicator then (st, p)
  else
    let candidates := getCandidateVideos p
    if candidates.isEmpty || v ∉ candidates then (st, p)
    else
      let st1 := hideConstantIndicator now st
      let st2 := { st1 with indicatorPrimaryVideo := some v }
      let p2 := if !isLiveVideo p v then setRate p v st2.currentSpeed else p
      (createConstantIndicator st2 v, p2)

/-- The capture-phase `play` listener from `setupPlayIntentListener`:
user play intent on a likely-main-player element triggers the transition
operation immediately (all modelled elements are `HTMLVideoElement`s). -/
def playHandler (now : ℕ) (st : Ctrl) (p : Page) (v : VideoId) : Ctrl × Page :=
  if !isLikelyMainPlayer p v then (st, p)
  else switchActiveVideo now st p v

/-- `destroy()`: clear the debounce timer, both recurring intervals and
both observers, remove every per-video listener, hide the overlay and the
toast, and drop the window self-reference. -/
def destroy (now : ℕ) (st0 : Ctrl) : Ctrl :=
  let st1 := { st0 with debounceTimer := false }
  let st2 := { st1 with scanInterval := false }
  let st3 := { st2 with speedCheckInterval := false }
  let st4 := { st3 with observer := false, urlChangeObserver := false }
  let st5 := st4.videoListeners.foldl removeVideoListeners st4
  let st6 := hideConstantIndicator now st5
  let st7 := hidePopupToast st6
  { st7 with registeredOnWindow := false }

/-- A stored `speedTuneSettings` record as the two readers see it.
`speed` is `some q` when the stored value is a number (content.js treats a
stored 0 as falsy via `settings.speed &&`); `saveSpeed` is the JS
truthiness of the stored flag; `showIndicatorNotFalse` is
`settings.showIndicator !== false`; `indicatorPosition` is the stored
string, `""` encoding an absent/falsy value. -/
structure StoredSettings where
  speed : Option ℚ
  saveSpeed : Bool
  showIndicatorNotFalse : Bool
  indicatorPosition : String
deriving DecidableEq, Repr

/-- A normalized settings record (the background worker's schema). -/
structure Settings where
  speed : ℚ
  saveSpeed : Bool
  showIndicator : Bool
  indicatorPosition : String
  version : String
deriving DecidableEq, Repr

/-- `SETTINGS_VERSION` in the background worker. -/
def settingsVersion : String := "1.0.0"

/-- `getDefaultSettings()` in the background worker. -/
def getDefaultSettings : Settings :=
  { speed := 1
    saveSpeed := false
    showIndicator := true
    indicatorPosition := "top-left"
    version := settingsVersion }

/-- The position whitelist in `migrateSettings`. -/
def validPositions : List String :=
  ["top-left", "top-right", "bottom-left", "bottom-right", "center"]

/-- `migrateSettings(raw)` from the background worker: normalize a stored
record to the current schema — clamp the speed to `[SPEED_MIN, SPEED_MAX]`,
default non-boolean flags, and whitelist the position. -/
def migrateSettings (raw : Option StoredSettings) : Settings :=
  match raw with
  | none => getDefaultSettings
  | some r =>
    { speed :=
        match r.speed with
        | some s => max (1/10) (min 16 s)
        | none => getDefaultSettings.speed
      saveSpeed := r.saveSpeed
      showIndicator := r.showIndicatorNotFalse
      indicatorPosition :=
        if r.indicatorPosition ∈ validPositions then r.indicatorPosition else "top-left"
      version := settingsVersion }

/-- Outcome of the `chrome.storage.sync.get` read in `loadSavedSettings`. -/
inductive StorageResult where
  | err : StorageResult
  | missing : StorageResult
  | found : StoredSettings → StorageResult
deriving DecidableEq, Repr

/-- The shared defaults branch of `loadSavedSettings` (used on storage
error, on a missing record, and when Save Speed is off): `setSpeed(1.0)`
when videos exist, otherwise set `currentSpeed` to 1 and hide the UI. -/
def loadDefaultsBranch (now : ℕ) (st : Ctrl) (p : Page) : Ctrl × Page :=
  if (getAllVideos p).isEmpty then
    (hidePopupToast (hideConstantIndicator now { st with currentSpeed := 1 }), p)
  else setSpeed now st p 1 st.showConstantIndicator st.indicatorPosition

/-- The callback body of `loadSavedSettings` applied to the storage read
outcome.  With a record present, the indicator flags are taken from the
record; with Save Speed on and a truthy stored speed the stored value is
applied — through `setSpeed` when videos exist, otherwise by assigning
`this.currentSpeed = settings.speed` directly. -/
def loadSavedSettings (now : ℕ) (st0 : Ctrl) (p : Page) (result : StorageResult) :
    Ctrl × Page :=
  match result with
  | .err => loadDefaultsBranch now st0 p
  | .missing => loadDefaultsBranch now st0 p
  | .found s =>
    let st :=
      { st0 with
        showConstantIndicator := s.showIndicatorNotFalse
        indicatorPosition :=
          if s.indicatorPosition = "" then "top-left" else s.indicatorPosition
        saveSpeedEnabled := s.saveSpeed }
    match s.speed with
    | some q =>
      if s.saveSpeed && decide (q ≠ 0) then
        if (getAllVideos p).isEmpty then
          (hidePopupToast (hideConstantIndicator now { st with currentSpeed := q }), p)
        else setSpeed now st p q st.showConstantIndicator st.indicatorPosition
      else loadDefaultsBranch now st p
    | none => loadDefaultsBranch now st p

/-- The single-overlay state invariant: at most one indicator node is in
the DOM, the controller's reference exists exactly when the node does, at
most one scroll/resize handler pair is registered (exactly when the node
exists), and the reconciliation interval only runs while the node exists. -/
def IndicatorInv (st : Ctrl) : Prop :=
  st.overlayCount ≤ 1 ∧
  (st.constantIndicator.isSome ↔ st.overlayCount = 1) ∧
  st.updateHandlers ≤ 1 ∧
  (st.constantIndicator.isSome ↔ st.updateHandlers = 1) ∧
  (st.indicatorRecomputeInterval = true → st.constantIndicator.isSome = true)

instance (st : Ctrl) : Decidable (IndicatorInv st) := by
  unfold IndicatorInv
  infer_instance

/-- The steady-state agreement between the marked primary and the selection
heuristic: the cached `indicatorPrimaryVideo`, when set, is the video the
heuristic currently selects.  (The 800 ms reconciliation interval restores
this agreement whenever it is broken.) -/
def ConsistentPrimary (st : Ctrl) (p : Page) : Prop :=
  ∀ a : VideoId, st.indicatorPrimaryVideo = some a → selectPrimaryVideo p = some a

/-! ### Helper lemmas: fields untouched by the indicator-UI operations -/

@[simp] lemma hideCI_currentSpeed (now : ℕ) (st : Ctrl) :
    (hideConstantIndicator now st).currentSpeed = st.currentSpeed := by
  unfold hideConstantIndicator; split <;> rfl

@[simp] lemma hideCI_showFlag (now : ℕ) (st : Ctrl) :
    (hideConstantIndicator now st).showConstantIndicator = st.showConstantIndicator := by
  unfold hideConstantIndicator; split <;> rfl

@[simp] lemma hideCI_position (now : ℕ) (st : Ctrl) :
    (hideConstantIndicator now st).indicatorPosition = st.indicatorPosition := by
  unfold hideConstantIndicator; split <;> rfl

@[simp] lemma hideCI_videos (now : ℕ) (st : Ctrl) :
    (hideConstantIndicator now st).videos = st.videos := by
  unfold hideConstantIndicator; split <;> rfl

@[simp] lemma hideCI_listeners (now : ℕ) (st : Ctrl) :
    (hideConstantIndicator now st).videoListeners = st.videoListeners := by
  unfold hideConstantIndicator; split <;> rfl

@[simp] lemma hideCI_toast (now : ℕ) (st : Ctrl) :
    (hideConstantIndicator now st).popupToast = st.popupToast := by
  unfold hideConstantIndicator; split <;> rfl

@[simp] lemma hideCI_saveSpeed (now : ℕ) (st : Ctrl) :
    (hideConstantIndicator now st).saveSpeedEnabled = st.saveSpeedEnabled := by
  unfold hideConstantIndicator; split <;> rfl

@[simp] lemma hideCI_indicator (now : ℕ) (st : Ctrl) :
    (hideConstantIndicator now st).constantIndicator = none := by
  unfold hideConstantIndicator
  split
  · next h => simpa [Option.isNone_iff_eq_none] using h
  · rfl

@[simp] lemma hidePT_currentSpeed (st : Ctrl) :
    (hidePopupToast st).currentSpeed = st.currentSpeed := by
  unfold hidePopupToast; split <;> rfl

@[simp] lemma hidePT_showFlag (st : Ctrl) :
    (hidePopupToast st).showConstantIndicator = st.showConstantIndicator := by
  unfold hidePopupToast; split <;> rfl

@[simp] lemma hidePT_position (st : Ctrl) :
    (hidePopupToast st).indicatorPosition = st.indicatorPosition := by
  unfold hidePopupToast; split <;> rfl

@[simp] lemma hidePT_videos (st : Ctrl) :
    (hidePopupToast st).videos = st.videos := by
  unfold hidePopupToast; split <;> rfl

@[simp] lemma hidePT_listeners (st : Ctrl) :
    (hidePopupToast st).videoListeners = st.videoListeners := by
  unfold hidePopupToast; split <;> rfl

@[simp] lemma hidePT_indicator (st : Ctrl) :
    (hidePopupToast st).constantIndicator = st.constantIndicator := by
  unfold hidePopupToast; split <;> rfl

@[simp] lemma hidePT_primary (st : Ctrl) :
    (hidePopupToast st).indicatorPrimaryVideo = st.indicatorPrimaryVideo := by
  unfold hidePopupToast; split <;> rfl

@[simp] lemma hidePT_overlay (st : Ctrl) :
    (hidePopupToast st).overlayCount = st.overlayCount := by
  unfold hidePopupToast; split <;> rfl

@[simp] lemma hidePT_handlers (st : Ctrl) :
    (hidePopupToast st).updateHandlers = st.updateHandlers := by
  unfold hidePopupToast; split <;> rfl

@[simp] lemma hidePT_interval (st : Ctrl) :
    (hidePopupToast st).indicatorRecomputeInterval = st.indicatorRecomputeInterval := by
  unfold hidePopupToast; split <;> rfl

@[simp] lemma hidePT_toast (st : Ctrl) :
    (hidePopupToast st).popupToast = st.popupToast := by
  unfold hidePopupToast; split <;> rfl

@[simp] lemma hidePT_toastTimeout (st : Ctrl) :
    (hidePopupToast st).popupToastTimeout = false := by
  unfold hidePopupToast; split <;> rfl

@[simp] lemma hidePT_saveSpeed (st : Ctrl) :
    (hidePopupToast st).saveSpeedEnabled = st.saveSpeedEnabled := by
  unfold hidePopupToast; split <;> rfl

@[simp] lemma createCI_currentSpeed (st : Ctrl) (v : VideoId) :
    (createConstantIndicator st v).currentSpeed = st.currentSpeed := by
  unfold createConstantIndicator; split <;> rfl

@[simp] lemma createCI_showFlag (st : Ctrl) (v : VideoId) :
    (createConstantIndicator st v).showConstantIndicator = st.showConstantIndicator := by
  unfold createConstantIndicator; split <;> rfl

@[simp] lemma createCI_position (st : Ctrl) (v : VideoId) :
    (createConstantIndicator st v).indicatorPosition = st.indicatorPosition := by
  unfold createConstantIndicator; split <;> rfl

@[simp] lemma createCI_videos (st : Ctrl) (v : VideoId) :
    (createConstantIndicator st v).videos = st.videos := by
  unfold createConstantIndicator; split <;> rfl

@[simp] lemma createCI_listeners (st : Ctrl) (v : VideoId) :
    (createConstantIndicator st v).videoListeners = st.videoListeners := by
  unfold createConstantIndicator; split <;> rfl

@[simp] lemma showCSI_currentSpeed (now : ℕ) (st : Ctrl) (p : Page) :
    (showConstantSpeedIndicator now st p).currentSpeed = st.currentSpeed := by
  unfold showConstantSpeedIndicator
  split
  · simp
  · split
    · simp
    · split
      · simp
      · split
        · rfl
        · simp

@[simp] lemma showCSI_showFlag (now : ℕ) (st : Ctrl) (p : Page) :
    (showConstantSpeedIndicator now st p).showConstantIndicator = st.showConstantIndicator := by
  unfold showConstantSpeedIndicator
  split
  · simp
  · split
    · simp
    · split
      · simp
      · split
        · rfl
        · simp

@[simp] lemma showCSI_position (now : ℕ) (st : Ctrl) (p : Page) :
    (showConstantSpeedIndicator now st p).indicatorPosition = st.indicatorPosition := by
  unfold showConstantSpeedIndicator
  split
  · simp
  · split
    · simp
    · split
      · simp
      · split
        · rfl
        · simp

@[simp] lemma showCSI_videos (now : ℕ) (st : Ctrl) (p : Page) :
    (showConstantSpeedIndicator now st p).videos = st.videos := by
  unfold showConstantSpeedIndicator
  split
  · simp
  · split
    · simp
    · split
      · simp
      · split
        · rfl
        · simp

@[simp] lemma updateInd_currentSpeed (now : ℕ) (st : Ctrl) (p : Page) :
    (updateIndicators now st p).currentSpeed = st.currentSpeed := by
  unfold updateIndicators; split <;> [simp; split <;> simp]

@[simp] lemma updateInd_showFlag (now : ℕ) (st : Ctrl) (p : Page) :
    (updateIndicators now st p).showConstantIndicator = st.showConstantIndicator := by
  unfold updateIndicators; split <;> [simp; split <;> simp]

@[simp] lemma updateInd_position (now : ℕ) (st : Ctrl) (p : Page) :
    (updateIndicators now st p).indicatorPosition = st.indicatorPosition := by
  unfold updateIndicators; split <;> [simp; split <;> simp]

@[simp] lemma setRate_rate (p : Page) (v : VideoId) (q : ℚ) (w : VideoId) :
    (setRate p v q).rate w = if w = v then q else p.rate w := rfl

@[simp] lemma setRate_rate_other (p : Page) (v : VideoId) (q : ℚ) (w : VideoId)
    (h : w ≠ v) : (setRate p v q).rate w = p.rate w := by
  simp [setRate, h]

/-! ### Claim C4 — `isLikelyMainPlayer` -/

/-- C4 counterexample: an in-document element that has its metadata
(readyState 1 = HAVE_METADATA), has not ended, is not paused at time zero,
and suffers no access failure — the claim says `isLikelyMainPlayer` is
true for it, but the source requires `readyState >= 2` (HAVE_CURRENT_DATA)
and returns false. -/
def c4attrs : VideoAttrs :=
  { inDoc := true, mainDoc := true, ended := false, readyState := 1,
    paused := false, currentTime := 5, live := false,
    rectLeft := 0, rectTop := 0, rectWidth := 640, rectHeight := 360,
    accessFails := false }

def c4page : Page :=
  { dom := [0], attrs := fun _ => c4attrs, rate := fun _ => 1,
    innerWidth := 1920, innerHeight := 1080, hidden := false }

/-- C4: counterexample.  The element satisfies every condition of the
claim's iff (metadata loaded: readyState = 1 ≥ HAVE_METADATA, not ended,
not paused-at-zero, in document, no access failure), yet
`isLikelyMainPlayer` returns false, because the code's threshold is
`readyState >= 2`, not `>= 1`. -/
theorem c4_claim_counterexample :
    (c4page.attrs 0).readyState = 1 ∧
    1 ≤ (c4page.attrs 0).readyState ∧
    (c4page.attrs 0).ended = false ∧
    (c4page.attrs 0).inDoc = true ∧
    (c4page.attrs 0).accessFails = false ∧
    ¬((c4page.attrs 0).paused = true ∧ (c4page.attrs 0).currentTime = 0) ∧
    isLikelyMainPlayer c4page 0 = false := by
  decide

/-- C4 (amended): `isLikelyMainPlayer(e)` returns true iff the element is
in the document, has not ended, has `readyState ≥ 2`
(HAVE_CURRENT_DATA — one level above the claimed HAVE_METADATA = 1), and
is not in the paused-at-currentTime-zero state; it returns false (it is a
total Boolean function, never throwing) on any access failure or for an
element not in the document. -/
theorem c4_isLikelyMainPlayer_characterization (p : Page) (v : VideoId) :
    isLikelyMainPlayer p v = true ↔
      ((p.attrs v).accessFails = false ∧ (p.attrs v).inDoc = true ∧
       (p.attrs v).ended = false ∧ 2 ≤ (p.attrs v).readyState ∧
       ¬((p.attrs v).paused = true ∧ (p.attrs v).currentTime = 0)) := by
  cases hpa : (p.attrs v).paused <;>
    simp [isLikelyMainPlayer, hpa, Bool.and_eq_true, Bool.not_eq_true',
      decide_eq_true_eq, decide_eq_false_iff_not, and_assoc]

/-- C4 witness: the characterization applied at a concrete in-document,
non-ended, readyState-4, playing element. -/
theorem c4_isLikelyMainPlayer_characterization_witness :
    isLikelyMainPlayer c4page 1 = true ∨ isLikelyMainPlayer c4page 0 = false := by
  right
  rcases (c4_isLikelyMainPlayer_characterization c4page 0) with ⟨hmp, hpm⟩
  cases hlm : isLikelyMainPlayer c4page 0
  · rfl
  · obtain ⟨_, _, _, hrs, _⟩ := hmp hlm
    norm_num [c4page, c4attrs] at hrs

/-! ### Claim C2 — primary selection -/

/-- Characterization of the reduce step of `selectPrimaryVideo`: folding
`pickLarger` either keeps the seed (then every list element has strictly
smaller area) or lands on a list element that every earlier element (and
the seed) is `≤` in area and every later element is `<` in area — i.e. on
ties the *later* element wins. -/
lemma foldl_pickLarger_split (p : Page) :
    ∀ (t : List VideoId) (a : VideoId),
      (t.foldl (pickLarger p) a = a ∧ ∀ u ∈ t, videoArea p u < videoArea p a) ∨
      (∃ l1 l2, t = l1 ++ (t.foldl (pickLarger p) a) :: l2 ∧
        videoArea p a ≤ videoArea p (t.foldl (pickLarger p) a) ∧
        (∀ u ∈ l1, videoArea p u ≤ videoArea p (t.foldl (pickLarger p) a)) ∧
        (∀ u ∈ l2, videoArea p u < videoArea p (t.foldl (pickLarger p) a))) := by
  intro t
  induction t with
  | nil =>
    intro a
    left
    exact ⟨rfl, by simp⟩
  | cons b t ih =>
    intro a
    have hfold : (b :: t).foldl (pickLarger p) a = t.foldl (pickLarger p) (pickLarger p a b) :=
      rfl
    by_cases hab : videoArea p b < videoArea p a
    · have hacc : pickLarger p a b = a := by simp [pickLarger, hab]
      rcases ih (pickLarger p a b) with ⟨heq, hall⟩ | ⟨l1, l2, hsplit, hle, hl1, hl2⟩
      · left
        rw [hacc] at heq hall
        rw [hfold, hacc]
        refine ⟨heq, ?_⟩
        intro u hu
        rcases List.mem_cons.mp hu with h1 | h2
        · subst h1; exact hab
        · exact hall u h2
      · right
        rw [hacc] at hsplit hle hl1 hl2
        rw [hfold, hacc]
        refine ⟨b :: l1, l2, ?_, hle, ?_, hl2⟩
        · rw [List.cons_append, ← hsplit]
        · intro u hu
          rcases List.mem_cons.mp hu with h1 | h2
          · subst h1; exact le_trans (le_of_lt hab) hle
          · exact hl1 u h2
    · have hacc : pickLarger p a b = b := by simp [pickLarger, hab]
      have hba : videoArea p a ≤ videoArea p b := not_lt.mp hab
      rcases ih (pickLarger p a b) with ⟨heq, hall⟩ | ⟨l1, l2, hsplit, hle, hl1, hl2⟩
      · right
        rw [hacc] at heq hall
        rw [hfold, hacc]
        refine ⟨[], t, ?_, ?_, ?_, ?_⟩
        · rw [heq]; rfl
        · rw [heq]; exact hba
        · simp
        · intro u hu; rw [heq]; exact hall u hu
      · right
        rw [hacc] at hsplit hle hl1 hl2
        rw [hfold, hacc]
        refine ⟨b :: l1, l2, ?_, le_trans hba hle, ?_, hl2⟩
        · rw [List.cons_append, ← hsplit]
        · intro u hu
          rcases List.mem_cons.mp hu with h1 | h2
          · subst h1; exact hle
          · exact hl1 u h2

/-- The selection pool is empty exactly when the candidate list is. -/
lemma selectionPool_eq_nil_iff (p : Page) :
    selectionPool p = [] ↔ getCandidateVideos p = [] := by
  simp only [selectionPool]
  split
  · exact Iff.rfl
  · next h =>
    constructor
    · intro hm
      rw [hm] at h
      simp at h
    · intro hc
      rw [hc] at h
      simp at h

/-- C2 counterexample: two candidate videos with exactly equal rendered
area (400×300 each), discovered in order `[0, 1]`.  The claim predicts the
earlier element (0) wins the tie; the source's
`pool.reduce((a, b) => area a > area b ? a : b)` keeps `a` only on a
*strict* win, so the later element (1) is selected. -/
def c2attrs : VideoAttrs :=
  { inDoc := true, mainDoc := true, ended := false, readyState := 4,
    paused := false, currentTime := 10, live := false,
    rectLeft := 0, rectTop := 0, rectWidth := 400, rectHeight := 300,
    accessFails := false }

def c2page : Page :=
  { dom := [0, 1], attrs := fun _ => c2attrs, rate := fun _ => 1,
    innerWidth := 1920, innerHeight := 1080, hidden := false }

/-- C2: counterexample.  Both elements are candidates (in first-seen order
`[0, 1]`) with equal areas, yet the selected primary is element 1, not the
first-seen element 0 the claim requires. -/
theorem c2_claim_counterexample :
    getCandidateVideos c2page = [0, 1] ∧
    videoArea c2page 0 = videoArea c2page 1 ∧
    selectPrimaryVideo c2page = some 1 ∧
    selectPrimaryVideo c2page ≠ some 0 := by
  have hcand : getCandidateVideos c2page = [0, 1] := by
    norm_num [getCandidateVideos, getAllVideos, isCandidate, isInMainDocument,
      isLiveVideo, c2page, c2attrs, mainMinWidth, mainMinHeight, List.dedup]
  have hlikely : isLikelyMainPlayer c2page 0 = true ∧ isLikelyMainPlayer c2page 1 = true := by
    norm_num [isLikelyMainPlayer, c2page, c2attrs]
  have hpool : selectionPool c2page = [0, 1] := by
    simp [selectionPool, hcand, hlikely.1, hlikely.2]
  have hsel : selectPrimaryVideo c2page = some 1 := by
    have harea : ¬(videoArea c2page 1 < videoArea c2page 0) := by
      norm_num [videoArea, c2page, c2attrs]
    simp [selectPrimaryVideo, hpool, pickLarger, harea]
  refine ⟨hcand, ?_, hsel, by simp [hsel]⟩
  norm_num [videoArea, c2page, c2attrs]

/-- C2 (amended): on an empty candidate set the result is none; otherwise
the pool is the `isLikelyMainPlayer` subset when non-empty, else the full
candidate set (this is `selectionPool` by definition), and the selected
primary is a pool element of maximal rendered area whose ties are broken
by *last*-seen iteration order: every pool element before it has area `≤`
its area and every pool element after it has area strictly `<` its area. -/
theorem c2_selectPrimary_largest_last (p : Page) :
    (getCandidateVideos p = [] → selectPrimaryVideo p = none) ∧
    (getCandidateVideos p ≠ [] →
      ∃ r l1 l2,
        selectPrimaryVideo p = some r ∧
        selectionPool p = l1 ++ r :: l2 ∧
        (∀ u ∈ l1, videoArea p u ≤ videoArea p r) ∧
        (∀ u ∈ l2, videoArea p u < videoArea p r)) := by
  constructor
  · intro h
    have hp : selectionPool p = [] := (selectionPool_eq_nil_iff p).mpr h
    simp [selectPrimaryVideo, hp]
  · intro h
    rcases hpool : selectionPool p with _ | ⟨a, t⟩
    · exact absurd ((selectionPool_eq_nil_iff p).mp hpool) h
    · have hsel : selectPrimaryVideo p = some (t.foldl (pickLarger p) a) := by
        simp [selectPrimaryVideo, hpool]
      rcases foldl_pickLarger_split p t a with ⟨heq, hall⟩ | ⟨l1, l2, hsplit, hle, hl1, hl2⟩
      · refine ⟨a, [], t, ?_, ?_, by simp, ?_⟩
        · rw [hsel, heq]
        · rfl
        · intro u hu; exact hall u hu
      · refine ⟨t.foldl (pickLarger p) a, a :: l1, l2, hsel, ?_, ?_, hl2⟩
        · nth_rewrite 1 [hsplit]
          rfl
        · intro u hu
          rcases List.mem_cons.mp hu with h1 | h2
          · subst h1; exact hle
          · exact hl1 u h2

/-- C2 witness: the amended theorem applied to the concrete two-candidate
page, discharging the non-emptiness hypothesis. -/
theorem c2_selectPrimary_largest_last_witness :
    ∃ r l1 l2,
      selectPrimaryVideo c2page = some r ∧
      selectionPool c2page = l1 ++ r :: l2 ∧
      (∀ u ∈ l1, videoArea c2page u ≤ videoArea c2page r) ∧
      (∀ u ∈ l2, videoArea c2page u < videoArea c2page r) :=
  (c2_selectPrimary_largest_last c2page).2 (by
    have h : getCandidateVideos c2page = [0, 1] := by
      norm_num [getCandidateVideos, getAllVideos, isCandidate, isInMainDocument,
        isLiveVideo, c2page, c2attrs, mainMinWidth, mainMinHeight, List.dedup]
    simp [h])

/-! ### Claim C1 — concrete states and pages (theorems follow the C6/C8 sections) -/

/-- Attributes of a plain in-document, playing, non-live 800×450 video. -/
def c1attrs : VideoAttrs :=
  { inDoc := true, mainDoc := true, ended := false, readyState := 4,
    paused := false, currentTime := 3, live := false,
    rectLeft := 0, rectTop := 0, rectWidth := 800, rectHeight := 450,
    accessFails := false }

def c1st : Ctrl := { Ctrl.initial with indicatorPrimaryVideo := some 0 }

def c1page : Page :=
  { dom := [0], attrs := fun _ => c1attrs, rate := fun _ => 1,
    innerWidth := 1920, innerHeight := 1080, hidden := false }

/-! ### Claim C10 — `setSpeed` default parameters reset indicator settings -/

/-- C10: every call `setSpeed(r)` that omits the optional parameters (so
runs with the JS defaults `showConstantIndicator = true`,
`position = "top-left"`) sets the indicator-enabled flag to true and the
indicator position to "top-left", whatever they were before. -/
theorem c10_setSpeedDefault_resets_indicator_settings
    (now : ℕ) (st : Ctrl) (p : Page) (r : ℚ) :
    (setSpeedDefault now st p r).1.showConstantIndicator = true ∧
    (setSpeedDefault now st p r).1.indicatorPosition = "top-left" := by
  unfold setSpeedDefault setSpeed
  simp only [Bool.not_true, Bool.and_false]
  split <;> (try split) <;> simp

/-! ### Claim C9 — the `playbackRate || 1` read treats a zero rate as 1 -/

/-- C9: in the drift checks of the 500 ms enforcement tick and of the
`ratechange` handler the live rate is read as `playbackRate || 1`, so a
rate of exactly 0 is read as 1; consequently, whenever the TargetRate is
within 0.01 of 1.0, an active video whose `playbackRate` is 0 is corrected
by neither path: the tick leaves its rate unchanged and the `ratechange`
handler schedules no delayed correction. -/
theorem c9_zero_rate_near_one_never_corrected (st : Ctrl) (p : Page) (a : VideoId)
    (ha : activeVideo st p = some a)
    (hrate : p.rate a = 0)
    (hnear : |st.currentSpeed - 1| ≤ 1/100) :
    jsOr (p.rate a) 1 = 1 ∧
    (speedCheckTick st p).rate a = p.rate a ∧
    rateChangeSchedules st p a = false ∧
    (onRateChange st p a).rate a = p.rate a := by
  have hj : jsOr (p.rate a) 1 = 1 := by simp [jsOr, hrate]
  have hguard : ¬(1/100 < |jsOr (p.rate a) 1 - st.currentSpeed|) := by
    rw [hj, abs_sub_comm]
    exact not_lt.mpr hnear
  have hdec : decide (1/100 < |jsOr (p.rate a) 1 - st.currentSpeed|) = false :=
    decide_eq_false hguard
  have hsched : rateChangeSchedules st p a = false := by
    unfold rateChangeSchedules
    rw [hdec]
    simp
  refine ⟨hj, ?_, hsched, ?_⟩
  · simp only [speedCheckTick, ha]
    split
    · rfl
    · split
      · rfl
      · rfl
  · unfold onRateChange
    rw [hsched]
    rfl

/-- C9 witness state: cached primary video 0 whose playback rate is 0,
TargetRate exactly 1. -/
def c9st : Ctrl := { Ctrl.initial with indicatorPrimaryVideo := some 0 }

def c9page : Page :=
  { dom := [0], attrs := fun _ => c1attrs, rate := fun _ => 0,
    innerWidth := 1920, innerHeight := 1080, hidden := false }

theorem c9_zero_rate_near_one_never_corrected_witness :
    activeVideo c9st c9page = some 0 ∧
    c9page.rate 0 = 0 ∧
    |c9st.currentSpeed - 1| ≤ 1/100 ∧
    (speedCheckTick c9st c9page).rate 0 = c9page.rate 0 ∧
    rateChangeSchedules c9st c9page 0 = false := by
  have h1 : activeVideo c9st c9page = some 0 := rfl
  have h2 : c9page.rate 0 = 0 := rfl
  have h3 : |c9st.currentSpeed - 1| ≤ 1/100 := by
    norm_num [c9st, Ctrl.initial]
  have h := c9_zero_rate_near_one_never_corrected c9st c9page 0 h1 h2 h3
  exact ⟨h1, h2, h3, h.2.1, h.2.2.1⟩

/-! ### Claim C3 — play-intent override -/

/-- C3 counterexample page/state: one perfectly good candidate main-player
video, but the controller has the indicator feature disabled. -/
def c3attrs : VideoAttrs :=
  { inDoc := true, mainDoc := true, ended := false, readyState := 4,
    paused := false, currentTime := 3, live := false,
    rectLeft := 0, rectTop := 0, rectWidth := 640, rectHeight := 360,
    accessFails := false }

def c3page : Page :=
  { dom := [0], attrs := fun _ => c3attrs, rate := fun _ => 1,
    innerWidth := 1920, innerHeight := 1080, hidden := false }

def c3st : Ctrl := { Ctrl.initial with showConstantIndicator := false }

/-- C3: counterexample.  Element 0 fires `play` and satisfies
`isLikelyMainPlayer` (it is even a candidate), yet it does not become
primary, because `switchActiveVideo` returns early when
`showConstantIndicator` is false — so the claimed unconditional override
does not hold. -/
theorem c3_claim_counterexample :
    isLikelyMainPlayer c3page 0 = true ∧
    0 ∈ getCandidateVideos c3page ∧
    c3st.indicatorPrimaryVideo = none ∧
    (playHandler 0 c3st c3page 0).1.indicatorPrimaryVideo = none := by
  decide

/-- C3 (amended): when an element fires `play`, satisfies
`isLikelyMainPlayer`, is in the candidate set, the indicator feature is
enabled, and the element is not already the cached primary, it immediately
becomes the primary via the transition operation (old overlay detached,
reference set, new overlay attached showing the TargetRate) and — unless
live — its playback rate is set to the TargetRate; this happens in the
play listener itself, bypassing the periodic reconciliation cadence.
Without the indicator-enabled and candidate conditions the handler is a
no-op (see the counterexample). -/
theorem c3_play_intent_amended (now : ℕ) (st : Ctrl) (p : Page) (v : VideoId)
    (hshow : st.showConstantIndicator = true)
    (hmain : isLikelyMainPlayer p v = true)
    (hcand : v ∈ getCandidateVideos p)
    (hnew : st.indicatorPrimaryVideo ≠ some v) :
    (playHandler now st p v).1.indicatorPrimaryVideo = some v ∧
    (playHandler now st p v).1.constantIndicator = some st.currentSpeed ∧
    (isLiveVideo p v = false → (playHandler now st p v).2.rate v = st.currentSpeed) := by
  unfold playHandler
  rw [hmain]
  simp only [Bool.not_true, Bool.false_eq_true, if_false]
  unfold switchActiveVideo
  rw [if_neg hnew]
  have hne : (getCandidateVideos p).isEmpty = false := by
    rcases hc : getCandidateVideos p with _ | ⟨x, xs⟩
    · rw [hc] at hcand; cases hcand
    · rfl
  have hmem : decide (v ∉ getCandidateVideos p) = false :=
    decide_eq_false (by simpa using hcand)
  rw [hshow]
  simp only [Bool.not_true, Bool.false_eq_true, if_false, hne, hmem, Bool.or_self]
  refine ⟨?_, ?_, ?_⟩
  · simp [createConstantIndicator, hshow]
  · simp [createConstantIndicator, hshow]
  · intro hlive
    simp [hlive, setRate]

/-- C3 witness: fresh controller (indicator enabled, no primary yet), the
candidate video 0 fires `play` and becomes primary with the overlay
attached and its rate set. -/
theorem c3_play_intent_amended_witness :
    Ctrl.initial.showConstantIndicator = true ∧
    isLikelyMainPlayer c3page 0 = true ∧
    0 ∈ getCandidateVideos c3page ∧
    Ctrl.initial.indicatorPrimaryVideo ≠ some 0 ∧
    (playHandler 0 Ctrl.initial c3page 0).1.indicatorPrimaryVideo = some 0 ∧
    (playHandler 0 Ctrl.initial c3page 0).1.constantIndicator
      = some Ctrl.initial.currentSpeed := by
  have h1 : Ctrl.initial.showConstantIndicator = true := rfl
  have h2 : isLikelyMainPlayer c3page 0 = true := by decide
  have h3 : 0 ∈ getCandidateVideos c3page := by decide
  have h4 : Ctrl.initial.indicatorPrimaryVideo ≠ some 0 := by decide
  have h := c3_play_intent_amended 0 Ctrl.initial c3page 0 h1 h2 h3 h4
  exact ⟨h1, h2, h3, h4, h.1, h.2.1⟩

/-! ### Claim C5 — single-primary / single-overlay invariant -/

lemma indicatorInv_hidePT (st : Ctrl) (h : IndicatorInv st) :
    IndicatorInv (hidePopupToast st) := by
  unfold IndicatorInv at *
  simpa using h

lemma indicatorInv_hideCI (now : ℕ) (st : Ctrl) (h : IndicatorInv st) :
    IndicatorInv (hideConstantIndicator now st) := by
  obtain ⟨h1, h2, h3, h4, h5⟩ := h
  unfold hideConstantIndicator
  split
  · exact ⟨h1, h2, h3, h4, h5⟩
  · next hne =>
    have hs : st.constantIndicator.isSome = true := by
      cases hc : st.constantIndicator
      · rw [hc] at hne; simp at hne
      · simp [hc]
    have hov : st.overlayCount = 1 := h2.mp hs
    refine ⟨?_, ?_, ?_, ?_, ?_⟩ <;> simp [hov]

lemma hideCI_overlayCount_zero (now : ℕ) (st : Ctrl) (h : IndicatorInv st) :
    (hideConstantIndicator now st).overlayCount = 0 := by
  obtain ⟨h1, h2, h3, h4, h5⟩ := h
  unfold hideConstantIndicator
  split
  · next hnone =>
    have hs : ¬st.constantIndicator.isSome = true := by
      cases hc : st.constantIndicator
      · simp
      · rw [hc] at hnone; simp at hnone
    have hne1 : ¬st.overlayCount = 1 := fun hh => hs (h2.mpr hh)
    omega
  · next hne =>
    have hs : st.constantIndicator.isSome = true := by
      cases hc : st.constantIndicator
      · rw [hc] at hne; simp at hne
      · simp [hc]
    have hov : st.overlayCount = 1 := h2.mp hs
    simp [hov]

lemma indicatorInv_createCI (st : Ctrl) (v : VideoId) (h : IndicatorInv st)
    (hnone : st.constantIndicator = none) :
    IndicatorInv (createConstantIndicator st v) := by
  obtain ⟨h1, h2, h3, h4, h5⟩ := h
  have hov : st.overlayCount = 0 := by
    have hne1 : ¬st.overlayCount = 1 := fun hh => by
      have := h2.mpr hh
      rw [hnone] at this
      simp at this
    omega
  have hha : st.updateHandlers = 0 := by
    have hne1 : ¬st.updateHandlers = 1 := fun hh => by
      have := h4.mpr hh
      rw [hnone] at this
      simp at this
    omega
  unfold createConstantIndicator
  split
  · exact ⟨h1, h2, h3, h4, h5⟩
  · refine ⟨?_, ?_, ?_, ?_, ?_⟩ <;> simp [hov, hha]

lemma indicatorInv_showCSI (now : ℕ) (st : Ctrl) (p : Page) (h : IndicatorInv st) :
    IndicatorInv (showConstantSpeedIndicator now st p) := by
  unfold showConstantSpeedIndicator
  split
  · exact indicatorInv_hideCI now st h
  · split
    · exact indicatorInv_hideCI now st h
    · split
      · exact indicatorInv_hideCI now st h
      · split
        · next hsome =>
          obtain ⟨h1, h2, h3, h4, h5⟩ := h
          have hov := h2.mp hsome
          have hha := h4.mp hsome
          refine ⟨?_, ?_, ?_, ?_, ?_⟩ <;> simp [hov, hha]
        · next hnone =>
          apply indicatorInv_createCI st _ h
          cases hc : st.constantIndicator
          · rfl
          · rw [hc] at hnone; simp at hnone

lemma indicatorInv_updateInd (now : ℕ) (st : Ctrl) (p : Page) (h : IndicatorInv st) :
    IndicatorInv (updateIndicators now st p) := by
  unfold updateIndicators
  split
  · exact indicatorInv_hidePT _ (indicatorInv_hideCI now st h)
  · split
    · exact indicatorInv_hidePT _ (indicatorInv_hideCI now st h)
    · exact indicatorInv_showCSI now _ p (indicatorInv_hidePT st h)

lemma indicatorInv_setSpeed (now : ℕ) (st : Ctrl) (p : Page) (r : ℚ)
    (showInd : Bool) (pos : String) (h : IndicatorInv st) :
    IndicatorInv (setSpeed now st p r showInd pos).1 := by
  unfold setSpeed
  apply indicatorInv_updateInd
  split
  · split
    · split
      · exact indicatorInv_hidePT _ (indicatorInv_hideCI now _ h)
      · exact h
    · split
      · exact indicatorInv_hidePT _ (indicatorInv_hideCI now _ h)
      · exact h
  · split
    · exact indicatorInv_hidePT _ (indicatorInv_hideCI now _ h)
    · exact h

lemma indicatorInv_switch (now : ℕ) (st : Ctrl) (p : Page) (v : VideoId)
    (h : IndicatorInv st) :
    IndicatorInv (switchActiveVideo now st p v).1 := by
  unfold switchActiveVideo
  dsimp only
  split
  · exact h
  · split
    · exact h
    · split
      · exact h
      · refine indicatorInv_createCI _ v ?_ ?_
        · exact indicatorInv_hideCI now st h
        · exact hideCI_indicator now st

lemma indicatorInv_playHandler (now : ℕ) (st : Ctrl) (p : Page) (v : VideoId)
    (h : IndicatorInv st) :
    IndicatorInv (playHandler now st p v).1 := by
  unfold playHandler
  split
  · exact h
  · exact indicatorInv_switch now st p v h

/-- C5: single-primary / single-overlay invariant.  `IndicatorInv` states:
at most one overlay node exists (`overlayCount ≤ 1`), the controller's
overlay reference exists exactly when the node does, at most one
scroll/resize handler registration exists (exactly when the node does),
and the reconciliation interval runs only while the node exists.  The
cached primary is a single `Option` field, so at most one element is
marked primary by construction.  The invariant is preserved by the
transition operation (`switchActiveVideo`), by `showConstantSpeedIndicator`,
by `hideConstantIndicator`, by `setSpeed` and by the play-intent handler;
moreover every transition detaches fully before attaching: the state after
the detach step has zero overlay nodes, so two overlays never coexist,
even transiently within one transition. -/
theorem c5_single_primary_invariant (now : ℕ) (st : Ctrl) (p : Page) (v : VideoId)
    (r : ℚ) (showInd : Bool) (pos : String) (h : IndicatorInv st) :
    IndicatorInv (switchActiveVideo now st p v).1 ∧
    IndicatorInv (showConstantSpeedIndicator now st p) ∧
    IndicatorInv (hideConstantIndicator now st) ∧
    IndicatorInv (setSpeed now st p r showInd pos).1 ∧
    IndicatorInv (playHandler now st p v).1 ∧
    (hideConstantIndicator now st).overlayCount = 0 ∧
    (switchActiveVideo now st p v).1.overlayCount ≤ 1 := by
  refine ⟨indicatorInv_switch now st p v h, indicatorInv_showCSI now st p h,
    indicatorInv_hideCI now st h, indicatorInv_setSpeed now st p r showInd pos h,
    indicatorInv_playHandler now st p v h, hideCI_overlayCount_zero now st h, ?_⟩
  obtain ⟨h1, _⟩ := indicatorInv_switch now st p v h
  exact h1

/-- C5 witness: the freshly-constructed controller satisfies the invariant
and the theorem applies to it on a one-video page. -/
theorem c5_single_primary_invariant_witness :
    IndicatorInv Ctrl.initial ∧
    IndicatorInv (switchActiveVideo 0 Ctrl.initial c3page 0).1 ∧
    (hideConstantIndicator 0 Ctrl.initial).overlayCount = 0 := by
  have hinv : IndicatorInv Ctrl.initial := by decide
  have h := c5_single_primary_invariant 0 Ctrl.initial c3page 0 1 true "top-left" hinv
  exact ⟨hinv, h.1, h.2.2.2.2.2.1⟩

/-! ### Claim C6 — frame property of rate enforcement -/

@[simp] lemma updateInd_videos (now : ℕ) (st : Ctrl) (p : Page) :
    (updateIndicators now st p).videos = st.videos := by
  unfold updateIndicators; split <;> [simp; split <;> simp]

/-- Under the marked/heuristic agreement, the active video is the
heuristically selected primary. -/
lemma consistent_active_select (st : Ctrl) (p : Page) (h : ConsistentPrimary st p)
    (a : VideoId) (ha : activeVideo st p = some a) :
    selectPrimaryVideo p = some a := by
  unfold activeVideo at ha
  cases hpp : st.indicatorPrimaryVideo with
  | none => rw [hpp] at ha; exact ha
  | some x =>
    rw [hpp] at ha
    injection ha with hx
    exact hx ▸ h x hpp

/-- As above, for an intermediate state whose cached primary is either the
original one or has been nulled. -/
lemma consistent_active_select_of (st st2 : Ctrl) (p : Page) (h : ConsistentPrimary st p)
    (hp : st2.indicatorPrimaryVideo = st.indicatorPrimaryVideo ∨
      st2.indicatorPrimaryVideo = none)
    (a : VideoId) (ha : activeVideo st2 p = some a) :
    selectPrimaryVideo p = some a := by
  unfold activeVideo at ha
  rcases hp with hp | hp
  · rw [hp] at ha
    cases hpp : st.indicatorPrimaryVideo with
    | none => rw [hpp] at ha; exact ha
    | some x =>
      rw [hpp] at ha
      injection ha with hx
      exact hx ▸ h x hpp
  · rw [hp] at ha
    exact ha

lemma speedCheckTick_frame (st : Ctrl) (p : Page) (h : ConsistentPrimary st p)
    (w : VideoId) (hw : ∀ a, selectPrimaryVideo p = some a → w ≠ a) :
    (speedCheckTick st p).rate w = p.rate w := by
  unfold speedCheckTick
  split
  · rfl
  · split
    · rfl
    · next a ha =>
      have hwa := hw a (consistent_active_select st p h a ha)
      split
      · rfl
      · split
        · exact setRate_rate_other p a st.currentSpeed w hwa
        · rfl

lemma applySpeed_frame (st : Ctrl) (p : Page) (h : ConsistentPrimary st p)
    (w : VideoId) (hw : ∀ a, selectPrimaryVideo p = some a → w ≠ a) (u : VideoId) :
    (applySpeed st p u).rate w = p.rate w := by
  unfold applySpeed
  split
  · rfl
  · split
    · rfl
    · next hne =>
      have ha : activeVideo st p = some u := not_not.mp hne
      have hwa := hw u (consistent_active_select st p h u ha)
      split
      · rfl
      · split
        · exact setRate_rate_other p u st.currentSpeed w hwa
        · rfl

lemma onRateChange_frame (st : Ctrl) (p : Page) (h : ConsistentPrimary st p)
    (w : VideoId) (hw : ∀ a, selectPrimaryVideo p = some a → w ≠ a) (u : VideoId) :
    (onRateChange st p u).rate w = p.rate w := by
  unfold onRateChange
  split
  · next hsch =>
    have ha : activeVideo st p = some u := by
      unfold rateChangeSchedules at hsch
      simp only [Bool.and_eq_true, decide_eq_true_eq] at hsch
      exact hsch.2.1
    have hwa := hw u (consistent_active_select st p h u ha)
    unfold rateChangeDelayedWrite
    split
    · exact setRate_rate_other p u st.currentSpeed w hwa
    · rfl
  · rfl

lemma setupOneVideo_rate_frame (primary : Option VideoId) (w : VideoId)
    (hw : ∀ a, primary = some a → w ≠ a) (acc : Ctrl × Page) (v : VideoId) :
    (setupOneVideo primary acc v).2.rate w = acc.2.rate w := by
  unfold setupOneVideo
  dsimp only
  split
  · rfl
  · split
    · split
      · next hcond =>
        have hv : primary = some v := by
          simp only [Bool.and_eq_true, decide_eq_true_eq] at hcond
          exact hcond.2
        exact setRate_rate_other acc.2 v _ w (hw v hv)
      · rfl
    · split
      · next hcond =>
        have hv : primary = some v := by
          simp only [Bool.and_eq_true, decide_eq_true_eq] at hcond
          exact hcond.2
        split
        · exact setRate_rate_other acc.2 v _ w (hw v hv)
        · rfl
      · rfl

lemma foldl_setupOneVideo_rate_frame (primary : Option VideoId) (w : VideoId)
    (hw : ∀ a, primary = some a → w ≠ a) :
    ∀ (l : List VideoId) (acc : Ctrl × Page),
      (l.foldl (setupOneVideo primary) acc).2.rate w = acc.2.rate w := by
  intro l
  induction l with
  | nil => intro acc; rfl
  | cons v t ih =>
    intro acc
    rw [List.foldl_cons, ih, setupOneVideo_rate_frame primary w hw acc v]

lemma findAndSetupVideos_rate_frame (now : ℕ) (st : Ctrl) (p : Page) (w : VideoId)
    (hw : ∀ a, selectPrimaryVideo p = some a → w ≠ a) :
    (findAndSetupVideos now st p).2.rate w = p.rate w := by
  unfold findAndSetupVideos
  dsimp only
  split
  · exact foldl_setupOneVideo_rate_frame _ w hw _ _
  · exact foldl_setupOneVideo_rate_frame _ w hw _ _

lemma setSpeed_rate_frame (now : ℕ) (st : Ctrl) (p : Page) (r : ℚ)
    (showInd : Bool) (pos : String) (h : ConsistentPrimary st p)
    (w : VideoId) (hw : ∀ a, selectPrimaryVideo p = some a → w ≠ a) :
    (setSpeed now st p r showInd pos).2.rate w = p.rate w := by
  unfold setSpeed
  dsimp only
  split
  · next a ha =>
    split
    · have hsel : selectPrimaryVideo p = some a := by
        refine consistent_active_select_of st _ p h ?_ a ha
        split
        · rw [hidePT_primary]
          unfold hideConstantIndicator
          split
          · left; rfl
          · right; rfl
        · left; rfl
      exact setRate_rate_other p a _ w (hw a hsel)
    · rfl
  · rfl

/-- C6 counterexample: the controller's cached (marked) primary is the
playing video 0, while the selection heuristic picks the larger video 1
(both are candidates and likely-main).  A discovery pass
(`findAndSetupVideos`) then writes video 1's playback rate even though
video 1 is not the active video — so "no operation ever writes the rate of
a tracked video other than the single active/primary video" fails when the
marked primary and the heuristic primary disagree. -/
def c6attrsA : VideoAttrs :=
  { inDoc := true, mainDoc := true, ended := false, readyState := 4,
    paused := false, currentTime := 3, live := false,
    rectLeft := 0, rectTop := 0, rectWidth := 400, rectHeight := 300,
    accessFails := false }

def c6attrsB : VideoAttrs :=
  { inDoc := true, mainDoc := true, ended := false, readyState := 4,
    paused := true, currentTime := 5, live := false,
    rectLeft := 0, rectTop := 0, rectWidth := 1280, rectHeight := 720,
    accessFails := false }

def c6page : Page :=
  { dom := [0, 1], attrs := fun v => if v = 0 then c6attrsA else c6attrsB,
    rate := fun _ => 1, innerWidth := 1920, innerHeight := 1080, hidden := false }

def c6st : Ctrl :=
  { Ctrl.initial with
    currentSpeed := 2
    indicatorPrimaryVideo := some 0
    videos := [0]
    videoListeners := [0]
    constantIndicator := some 2
    overlayCount := 1
    updateHandlers := 1
    indicatorRecomputeInterval := true }

lemma c6page_select : selectPrimaryVideo c6page = some 1 := by
  have hcand : getCandidateVideos c6page = [0, 1] := by
    norm_num [getCandidateVideos, getAllVideos, isCandidate, isInMainDocument,
      isLiveVideo, c6page, c6attrsA, c6attrsB, mainMinWidth, mainMinHeight, List.dedup]
  have h0 : isLikelyMainPlayer c6page 0 = true := by
    norm_num [isLikelyMainPlayer, c6page, c6attrsA]
  have h1 : isLikelyMainPlayer c6page 1 = true := by
    norm_num [isLikelyMainPlayer, c6page, c6attrsB]
  have hpool : selectionPool c6page = [0, 1] := by
    simp [selectionPool, hcand, h0, h1]
  have harea : ¬(videoArea c6page 1 < videoArea c6page 0) := by
    norm_num [videoArea, c6page, c6attrsA, c6attrsB]
  simp [selectPrimaryVideo, hpool, pickLarger, harea]

/-- C6: counterexample.  Video 0 is the marked/active primary, video 1 is
a different video; one `findAndSetupVideos` pass changes video 1's
playback rate from 1 to the TargetRate 2 and tracks it — a rate write to a
tracked video other than the active one. -/
theorem c6_claim_counterexample :
    c6st.indicatorPrimaryVideo = some 0 ∧
    activeVideo c6st c6page = some 0 ∧
    (0 : VideoId) ≠ 1 ∧
    c6page.rate 1 = 1 ∧
    (findAndSetupVideos 0 c6st c6page).2.rate 1 = 2 ∧
    1 ∈ (findAndSetupVideos 0 c6st c6page).1.videos := by
  have hrate : (findAndSetupVideos 0 c6st c6page).2.rate 1 = 2 := by
    unfold findAndSetupVideos
    dsimp only
    rw [c6page_select]
    decide
  have hmem : 1 ∈ (findAndSetupVideos 0 c6st c6page).1.videos := by
    unfold findAndSetupVideos
    dsimp only
    rw [c6page_select]
    rw [if_neg (by decide : ¬((getAllVideos c6page).isEmpty = true))]
    rw [updateInd_videos]
    decide
  exact ⟨rfl, rfl, by decide, rfl, hrate, hmem⟩

/-- C6 (amended): each operation only writes the playback rate of its own
primary: the 500 ms tick, `setSpeed` and the per-video `applySpeed` /
`ratechange` handlers target the active video
(`indicatorPrimaryVideo || selectPrimaryVideo()`), while a discovery pass
targets `selectPrimaryVideo()`.  Whenever the marked primary agrees with
the heuristic primary (or is unset) — the steady state the 800 ms
reconciliation restores — every one of these operations leaves the rate of
every other video unchanged, and the tick leaves even the primary's rate
unchanged unless the `(playbackRate || 1)`-read rate drifts from the
TargetRate by more than 0.01. -/
theorem c6_rate_write_frame (now : ℕ) (st : Ctrl) (p : Page) (r : ℚ)
    (showInd : Bool) (pos : String) (u w : VideoId)
    (h : ConsistentPrimary st p)
    (hw : ∀ a, selectPrimaryVideo p = some a → w ≠ a) :
    (speedCheckTick st p).rate w = p.rate w ∧
    (applySpeed st p u).rate w = p.rate w ∧
    (onRateChange st p u).rate w = p.rate w ∧
    (findAndSetupVideos now st p).2.rate w = p.rate w ∧
    (setSpeed now st p r showInd pos).2.rate w = p.rate w ∧
    (∀ a, activeVideo st p = some a →
      |jsOr (p.rate a) 1 - st.currentSpeed| ≤ 1/100 →
      (speedCheckTick st p).rate a = p.rate a) := by
  refine ⟨speedCheckTick_frame st p h w hw, applySpeed_frame st p h w hw u,
    onRateChange_frame st p h w hw u, findAndSetupVideos_rate_frame now st p w hw,
    setSpeed_rate_frame now st p r showInd pos h w hw, ?_⟩
  intro a ha hle
  have hguard : ¬(1/100 < |jsOr (p.rate a) 1 - st.currentSpeed|) := not_lt.mpr hle
  simp only [speedCheckTick, ha]
  split
  · rfl
  · split
    · rfl
    · rfl

/-- C6 witness state: the marked primary agrees with the heuristic primary
(video 1); video 0 is some other tracked video. -/
def c6wst : Ctrl := { c6st with indicatorPrimaryVideo := some 1 }

theorem c6_rate_write_frame_witness :
    ConsistentPrimary c6wst c6page ∧
    (∀ a, selectPrimaryVideo c6page = some a → (0 : VideoId) ≠ a) ∧
    (speedCheckTick c6wst c6page).rate 0 = c6page.rate 0 ∧
    (findAndSetupVideos 0 c6wst c6page).2.rate 0 = c6page.rate 0 := by
  have hcons : ConsistentPrimary c6wst c6page := by
    intro a ha
    injection ha with hx
    exact hx ▸ c6page_select
  have hw : ∀ a, selectPrimaryVideo c6page = some a → (0 : VideoId) ≠ a := by
    intro a ha
    rw [c6page_select] at ha
    injection ha with hx
    subst hx
    decide
  have h := c6_rate_write_frame 0 c6wst c6page 1 true "top-left" 0 0 hcons hw
  exact ⟨hcons, hw, h.1, h.2.2.2.1⟩

/-! ### Claim C7 — settings reader normalization -/

@[simp] lemma createCI_saveSpeed (st : Ctrl) (v : VideoId) :
    (createConstantIndicator st v).saveSpeedEnabled = st.saveSpeedEnabled := by
  unfold createConstantIndicator; split <;> rfl

@[simp] lemma showCSI_saveSpeed (now : ℕ) (st : Ctrl) (p : Page) :
    (showConstantSpeedIndicator now st p).saveSpeedEnabled = st.saveSpeedEnabled := by
  unfold showConstantSpeedIndicator
  split
  · simp
  · split
    · simp
    · split
      · simp
      · split
        · rfl
        · simp

@[simp] lemma updateInd_saveSpeed (now : ℕ) (st : Ctrl) (p : Page) :
    (updateIndicators now st p).saveSpeedEnabled = st.saveSpeedEnabled := by
  unfold updateIndicators; split <;> [simp; split <;> simp]

lemma setSpeed_currentSpeed (now : ℕ) (st : Ctrl) (p : Page) (r : ℚ)
    (b : Bool) (pos : String) :
    (setSpeed now st p r b pos).1.currentSpeed = clampSpeed (round2 r) := by
  unfold setSpeed
  dsimp only
  split <;> (try split) <;> (try split) <;> simp

lemma setSpeed_showFlag (now : ℕ) (st : Ctrl) (p : Page) (r : ℚ)
    (b : Bool) (pos : String) :
    (setSpeed now st p r b pos).1.showConstantIndicator = b := by
  unfold setSpeed
  dsimp only
  split <;> (try split) <;> (try split) <;> simp

lemma setSpeed_position (now : ℕ) (st : Ctrl) (p : Page) (r : ℚ)
    (b : Bool) (pos : String) :
    (setSpeed now st p r b pos).1.indicatorPosition = pos := by
  unfold setSpeed
  dsimp only
  split <;> (try split) <;> (try split) <;> simp

lemma setSpeed_saveSpeed (now : ℕ) (st : Ctrl) (p : Page) (r : ℚ)
    (b : Bool) (pos : String) :
    (setSpeed now st p r b pos).1.saveSpeedEnabled = st.saveSpeedEnabled := by
  unfold setSpeed
  dsimp only
  split <;> (try split) <;> (try split) <;> simp

lemma round2_one : round2 1 = 1 := by
  have h : (⌊(1 : ℚ) * 100 + 1/2⌋ : ℤ) = 100 := by
    rw [Int.floor_eq_iff]
    norm_num
  unfold round2 jsRound
  rw [h]
  norm_num

lemma clampSpeed_one : clampSpeed 1 = 1 := by
  unfold clampSpeed
  rw [min_eq_right (by norm_num : (1 : ℚ) ≤ 16),
    max_eq_right (by norm_num : (1 : ℚ)/10 ≤ 1)]

lemma clampSpeed_mem (q : ℚ) : 1/10 ≤ clampSpeed q ∧ clampSpeed q ≤ 16 := by
  unfold clampSpeed
  refine ⟨le_max_left _ _, max_le (by norm_num) (min_le_left _ _)⟩

lemma loadDefaultsBranch_currentSpeed (now : ℕ) (st : Ctrl) (p : Page) :
    (loadDefaultsBranch now st p).1.currentSpeed = 1 := by
  unfold loadDefaultsBranch
  split
  · simp
  · rw [setSpeed_currentSpeed, round2_one, clampSpeed_one]

lemma loadDefaultsBranch_flags (now : ℕ) (st : Ctrl) (p : Page) :
    (loadDefaultsBranch now st p).1.saveSpeedEnabled = st.saveSpeedEnabled ∧
    (loadDefaultsBranch now st p).1.showConstantIndicator = st.showConstantIndicator ∧
    (loadDefaultsBranch now st p).1.indicatorPosition = st.indicatorPosition := by
  unfold loadDefaultsBranch
  split
  · exact ⟨by simp, by simp, by simp⟩
  · exact ⟨by rw [setSpeed_saveSpeed], by rw [setSpeed_showFlag], by rw [setSpeed_position]⟩

/-- C7 counterexample record and empty page: `saveSpeed` on, stored speed
100 (outside [0.1, 16]), and no videos discovered yet at load time. -/
def c7stored : StoredSettings :=
  { speed := some 100, saveSpeed := true, showIndicatorNotFalse := true,
    indicatorPosition := "top-left" }

def c7page : Page :=
  { dom := [], attrs := fun _ => c3attrs, rate := fun _ => 1,
    innerWidth := 1920, innerHeight := 1080, hidden := false }

/-- C7: counterexample.  With `saveSpeed: true`, stored `speed: 100` and no
videos on the page at load time, `loadSavedSettings` assigns
`this.currentSpeed = settings.speed` directly, without clamping: the
resulting TargetRate is 100, outside [0.1, 16]. -/
theorem c7_claim_counterexample :
    c7stored.saveSpeed = true ∧
    c7stored.speed = some 100 ∧
    ¬((100 : ℚ) ≤ 16) ∧
    (loadSavedSettings 0 Ctrl.initial c7page (.found c7stored)).1.currentSpeed = 100 := by
  decide

/-- C7 (amended): the settings reader is total (never propagates an
error): on a read error or missing record it falls back to TargetRate 1
and proceeds; the background `migrateSettings` normalizes every stored
record, clamping the speed into [0.1, 16] and whitelisting the position;
and the content reader normalizes the flags
(`showIndicator !== false`, `indicatorPosition || "top-left"`,
`saveSpeed || false`) and yields a TargetRate inside [0.1, 16] whenever at
least one video is present at load time.  However, when no videos are
present and `saveSpeed` is on with a truthy stored speed, the raw stored
value is assigned to TargetRate unclamped — so an out-of-range stored
speed survives in exactly that case (see the counterexample). -/
theorem c7_settings_normalization_amended (now : ℕ) (st : Ctrl) (p : Page)
    (raw : Option StoredSettings) (s : StoredSettings) :
    (1/10 ≤ (migrateSettings raw).speed ∧ (migrateSettings raw).speed ≤ 16) ∧
    (migrateSettings raw).indicatorPosition ∈ validPositions ∧
    (loadSavedSettings now st p .err).1.currentSpeed = 1 ∧
    (loadSavedSettings now st p .missing).1.currentSpeed = 1 ∧
    ((getAllVideos p).isEmpty = false →
      1/10 ≤ (loadSavedSettings now st p (.found s)).1.currentSpeed ∧
      (loadSavedSettings now st p (.found s)).1.currentSpeed ≤ 16) ∧
    (∀ q : ℚ, (getAllVideos p).isEmpty = true → s.saveSpeed = true →
      s.speed = some q → q ≠ 0 →
      (loadSavedSettings now st p (.found s)).1.currentSpeed = q) ∧
    ((loadSavedSettings now st p (.found s)).1.saveSpeedEnabled = s.saveSpeed ∧
     (loadSavedSettings now st p (.found s)).1.showConstantIndicator
        = s.showIndicatorNotFalse ∧
     (loadSavedSettings now st p (.found s)).1.indicatorPosition
        = (if s.indicatorPosition = "" then "top-left" else s.indicatorPosition)) := by
  refine ⟨?_, ?_, ?_, ?_, ?_, ?_, ?_⟩
  · rcases raw with _ | r
    · constructor <;> norm_num [migrateSettings, getDefaultSettings]
    · rcases hsp : r.speed with _ | q
      · simp only [migrateSettings, hsp]
        constructor <;> norm_num [getDefaultSettings]
      · simp only [migrateSettings, hsp]
        exact clampSpeed_mem q
  · rcases raw with _ | r
    · simp [migrateSettings, getDefaultSettings, validPositions]
    · simp only [migrateSettings]
      split
      · next hmem => exact hmem
      · simp [validPositions]
  · exact loadDefaultsBranch_currentSpeed now st p
  · exact loadDefaultsBranch_currentSpeed now st p
  · intro hne
    unfold loadSavedSettings
    dsimp only
    split
    · split
      · split
        · next hemp => rw [hne] at hemp; cases hemp
        · rw [setSpeed_currentSpeed]
          exact clampSpeed_mem _
      · rw [loadDefaultsBranch_currentSpeed]
        norm_num
    · rw [loadDefaultsBranch_currentSpeed]
      norm_num
  · intro q hemp hsave hsp hq0
    unfold loadSavedSettings
    dsimp only
    split
    · next q2 hq2 =>
      rw [hsp] at hq2
      injection hq2 with hqq
      subst hqq
      have hcond : (s.saveSpeed && decide (q ≠ 0)) = true := by
        rw [hsave]
        simp [hq0]
      rw [if_pos hcond]
      split
      · simp
      · next hne => exact absurd (hemp ▸ rfl) hne
    · next hq2 => rw [hsp] at hq2; cases hq2
  · unfold loadSavedSettings
    dsimp only
    split
    · split
      · split
        · exact ⟨by simp, by simp, by simp⟩
        · exact ⟨by rw [setSpeed_saveSpeed], by rw [setSpeed_showFlag],
            by rw [setSpeed_position]⟩
      · exact ⟨by rw [(loadDefaultsBranch_flags now _ p).1],
          by rw [(loadDefaultsBranch_flags now _ p).2.1],
          by rw [(loadDefaultsBranch_flags now _ p).2.2]⟩
    · exact ⟨by rw [(loadDefaultsBranch_flags now _ p).1],
        by rw [(loadDefaultsBranch_flags now _ p).2.1],
        by rw [(loadDefaultsBranch_flags now _ p).2.2]⟩

/-- C7 witness page: one candidate video present at load time. -/
def c7vidpage : Page :=
  { dom := [0], attrs := fun _ => c3attrs, rate := fun _ => 1,
    innerWidth := 1920, innerHeight := 1080, hidden := false }

theorem c7_settings_normalization_amended_witness :
    (getAllVideos c7vidpage).isEmpty = false ∧
    (1/10 ≤ (loadSavedSettings 0 Ctrl.initial c7vidpage (.found c7stored)).1.currentSpeed ∧
     (loadSavedSettings 0 Ctrl.initial c7vidpage (.found c7stored)).1.currentSpeed ≤ 16) :=
  ⟨by decide,
   (c7_settings_normalization_amended 0 Ctrl.initial c7vidpage (some c7stored)
     c7stored).2.2.2.2.1 (by decide)⟩

/-! ### Claim C8 — idempotent teardown -/

@[simp] lemma hideCI_debounce (now : ℕ) (st : Ctrl) :
    (hideConstantIndicator now st).debounceTimer = st.debounceTimer := by
  unfold hideConstantIndicator; split <;> rfl

@[simp] lemma hideCI_speedCheck (now : ℕ) (st : Ctrl) :
    (hideConstantIndicator now st).speedCheckInterval = st.speedCheckInterval := by
  unfold hideConstantIndicator; split <;> rfl

@[simp] lemma hideCI_scan (now : ℕ) (st : Ctrl) :
    (hideConstantIndicator now st).scanInterval = st.scanInterval := by
  unfold hideConstantIndicator; split <;> rfl

@[simp] lemma hideCI_observer (now : ℕ) (st : Ctrl) :
    (hideConstantIndicator now st).observer = st.observer := by
  unfold hideConstantIndicator; split <;> rfl

@[simp] lemma hideCI_urlObs (now : ℕ) (st : Ctrl) :
    (hideConstantIndicator now st).urlChangeObserver = st.urlChangeObserver := by
  unfold hideConstantIndicator; split <;> rfl

@[simp] lemma hideCI_reg (now : ℕ) (st : Ctrl) :
    (hideConstantIndicator now st).registeredOnWindow = st.registeredOnWindow := by
  unfold hideConstantIndicator; split <;> rfl

@[simp] lemma hideCI_pending (now : ℕ) (st : Ctrl) :
    (hideConstantIndicator now st).popupToastPendingRemoval
      = st.popupToastPendingRemoval := by
  unfold hideConstantIndicator; split <;> rfl

@[simp] lemma hideCI_toastTimeout (now : ℕ) (st : Ctrl) :
    (hideConstantIndicator now st).popupToastTimeout = st.popupToastTimeout := by
  unfold hideConstantIndicator; split <;> rfl

@[simp] lemma hidePT_debounce (st : Ctrl) :
    (hidePopupToast st).debounceTimer = st.debounceTimer := by
  unfold hidePopupToast; split <;> rfl

@[simp] lemma hidePT_speedCheck (st : Ctrl) :
    (hidePopupToast st).speedCheckInterval = st.speedCheckInterval := by
  unfold hidePopupToast; split <;> rfl

@[simp] lemma hidePT_scan (st : Ctrl) :
    (hidePopupToast st).scanInterval = st.scanInterval := by
  unfold hidePopupToast; split <;> rfl

@[simp] lemma hidePT_observer (st : Ctrl) :
    (hidePopupToast st).observer = st.observer := by
  unfold hidePopupToast; split <;> rfl

@[simp] lemma hidePT_urlObs (st : Ctrl) :
    (hidePopupToast st).urlChangeObserver = st.urlChangeObserver := by
  unfold hidePopupToast; split <;> rfl

@[simp] lemma hidePT_reg (st : Ctrl) :
    (hidePopupToast st).registeredOnWindow = st.registeredOnWindow := by
  unfold hidePopupToast; split <;> rfl

lemma hidePT_pending_of_some (st : Ctrl) (h : st.popupToast.isSome = true) :
    (hidePopupToast st).popupToastPendingRemoval = true := by
  unfold hidePopupToast
  dsimp only
  rw [if_pos h]

/-- The teardown loop touches only `videos` and `videoListeners`. -/
lemma foldl_removeVL_proj {α : Type _} (f : Ctrl → α)
    (hf : ∀ s v, f (removeVideoListeners s v) = f s) :
    ∀ (l : List VideoId) (s : Ctrl), f (l.foldl removeVideoListeners s) = f s := by
  intro l
  induction l with
  | nil => intro s; rfl
  | cons v t ih =>
    intro s
    rw [List.foldl_cons, ih, hf]

/-- Removing the listeners of every key of the listener map empties it. -/
lemma foldl_removeVL_listeners :
    ∀ (l : List VideoId) (s : Ctrl), s.videoListeners = l →
      (l.foldl removeVideoListeners s).videoListeners = [] := by
  intro l
  induction l with
  | nil => intro s h; exact h
  | cons v t ih =>
    intro s h
    rw [List.foldl_cons]
    apply ih
    have hv : v ∈ s.videoListeners := by
      rw [h]; exact List.mem_cons_self v t
    unfold removeVideoListeners
    rw [if_pos hv]
    show s.videoListeners.erase v = t
    rw [h, List.erase_cons_head]

/-- `hideConstantIndicator` leaves the reconciliation interval cleared
whenever the interval only runs while the overlay exists. -/
lemma hideCI_interval_false (now : ℕ) (s : Ctrl)
    (h : s.indicatorRecomputeInterval = true → s.constantIndicator.isSome = true) :
    (hideConstantIndicator now s).indicatorRecomputeInterval = false := by
  unfold hideConstantIndicator
  split
  · next hnone =>
    cases hi : s.indicatorRecomputeInterval
    · rfl
    · exfalso
      have hs := h hi
      rw [Option.isNone_iff_eq_none] at hnone
      rw [hnone] at hs
      simp at hs
  · rfl

/-- What one `destroy()` call guarantees, on any state. -/
lemma destroy_releases (n : ℕ) (st : Ctrl) :
    (destroy n st).debounceTimer = false ∧
    (destroy n st).scanInterval = false ∧
    (destroy n st).speedCheckInterval = false ∧
    (destroy n st).observer = false ∧
    (destroy n st).urlChangeObserver = false ∧
    (destroy n st).registeredOnWindow = false ∧
    (destroy n st).videoListeners = [] ∧
    (destroy n st).constantIndicator = none ∧
    (destroy n st).popupToastTimeout = false ∧
    (destroy n st).popupToast = st.popupToast ∧
    ((destroy n st).popupToast.isSome = true →
      (destroy n st).popupToastPendingRemoval = true) ∧
    ((st.indicatorRecomputeInterval = true → st.constantIndicator.isSome = true) →
      (destroy n st).indicatorRecomputeInterval = false) ∧
    (IndicatorInv st → (destroy n st).overlayCount = 0) := by
  have hfd := foldl_removeVL_proj Ctrl.debounceTimer
    (fun s v => by unfold removeVideoListeners; split <;> rfl)
  have hfs := foldl_removeVL_proj Ctrl.scanInterval
    (fun s v => by unfold removeVideoListeners; split <;> rfl)
  have hfc := foldl_removeVL_proj Ctrl.speedCheckInterval
    (fun s v => by unfold removeVideoListeners; split <;> rfl)
  have hfo := foldl_removeVL_proj Ctrl.observer
    (fun s v => by unfold removeVideoListeners; split <;> rfl)
  have hfu := foldl_removeVL_proj Ctrl.urlChangeObserver
    (fun s v => by unfold removeVideoListeners; split <;> rfl)
  have hfci := foldl_removeVL_proj Ctrl.constantIndicator
    (fun s v => by unfold removeVideoListeners; split <;> rfl)
  have hftt := foldl_removeVL_proj Ctrl.popupToastTimeout
    (fun s v => by unfold removeVideoListeners; split <;> rfl)
  have hfpt := foldl_removeVL_proj Ctrl.popupToast
    (fun s v => by unfold removeVideoListeners; split <;> rfl)
  have hfint := foldl_removeVL_proj Ctrl.indicatorRecomputeInterval
    (fun s v => by unfold removeVideoListeners; split <;> rfl)
  have hfov := foldl_removeVL_proj Ctrl.overlayCount
    (fun s v => by unfold removeVideoListeners; split <;> rfl)
  have hfuh := foldl_removeVL_proj Ctrl.updateHandlers
    (fun s v => by unfold removeVideoListeners; split <;> rfl)
  refine ⟨?_, ?_, ?_, ?_, ?_, ?_, ?_, ?_, ?_, ?_, ?_, ?_, ?_⟩
  · unfold destroy; dsimp only
    rw [hidePT_debounce, hideCI_debounce, hfd]
  · unfold destroy; dsimp only
    rw [hidePT_scan, hideCI_scan, hfs]
  · unfold destroy; dsimp only
    rw [hidePT_speedCheck, hideCI_speedCheck, hfc]
  · unfold destroy; dsimp only
    rw [hidePT_observer, hideCI_observer, hfo]
  · unfold destroy; dsimp only
    rw [hidePT_urlObs, hideCI_urlObs, hfu]
  · rfl
  · unfold destroy; dsimp only
    rw [hidePT_listeners, hideCI_listeners]
    exact foldl_removeVL_listeners _ _ rfl
  · unfold destroy; dsimp only
    rw [hidePT_indicator, hideCI_indicator]
  · unfold destroy; dsimp only
    rw [hidePT_toastTimeout]
  · unfold destroy; dsimp only
    rw [hidePT_toast, hideCI_toast, hfpt]
  · unfold destroy; dsimp only
    intro hsome
    rw [hidePT_toast] at hsome
    exact hidePT_pending_of_some _ hsome
  · intro hinv
    unfold destroy; dsimp only
    rw [hidePT_interval]
    apply hideCI_interval_false
    intro hint
    rw [hfint] at hint
    rw [hfci]
    exact hinv hint
  · intro hinv
    unfold destroy; dsimp only
    rw [hidePT_overlay]
    apply hideCI_overlayCount_zero
    unfold IndicatorInv at hinv ⊢
    rw [hfov, hfci, hfuh, hfint]
    exact hinv

/-- On a state that is already fully released, `destroy` is the
identity. -/
lemma destroy_noop (n : ℕ) (s : Ctrl)
    (hD : s.debounceTimer = false) (hS : s.scanInterval = false)
    (hC : s.speedCheckInterval = false) (hO : s.observer = false)
    (hU : s.urlChangeObserver = false) (hR : s.registeredOnWindow = false)
    (hL : s.videoListeners = []) (hCI : s.constantIndicator = none)
    (hTT : s.popupToastTimeout = false)
    (hPend : s.popupToast.isSome = true → s.popupToastPendingRemoval = true) :
    destroy n s = s := by
  rcases s with ⟨cs, vids, ci, uh, ipv, iri, lih, pt, ppr, ptt, sci, ip, sse,
    dt, sck, si, vls, ob, uo, row, oc⟩
  dsimp only at hD hS hC hO hU hR hL hCI hTT hPend
  subst hD hS hC hO hU hR hL hCI hTT
  cases pt with
  | none => rfl
  | some x =>
    have hpd : ppr = true := hPend rfl
    subst hpd
    rfl

/-- C8: teardown is idempotent.  A second `destroy()` right after a first
one changes nothing (the controller state is exactly the same, so there
are no duplicate side effects and no error — every operation is total),
and the first call already leaves the fully-released state: all timers and
observers cleared, the listener map empty, the overlay gone (and its
reconciliation interval stopped, given the interval-implies-overlay
reachability invariant), the overlay node count zero (given the
single-overlay invariant), and the toast absent whenever no toast existed
(the deprecated toast is never created by this controller, so that is
every reachable state). -/
theorem c8_destroy_idempotent (st : Ctrl) (n1 n2 : ℕ) :
    destroy n2 (destroy n1 st) = destroy n1 st ∧
    (destroy n1 st).debounceTimer = false ∧
    (destroy n1 st).scanInterval = false ∧
    (destroy n1 st).speedCheckInterval = false ∧
    (destroy n1 st).observer = false ∧
    (destroy n1 st).urlChangeObserver = false ∧
    (destroy n1 st).registeredOnWindow = false ∧
    (destroy n1 st).videoListeners = [] ∧
    (destroy n1 st).constantIndicator = none ∧
    (destroy n1 st).popupToastTimeout = false ∧
    (st.popupToast = none → (destroy n1 st).popupToast = none) ∧
    ((st.indicatorRecomputeInterval = true → st.constantIndicator.isSome = true) →
      (destroy n1 st).indicatorRecomputeInterval = false) ∧
    (IndicatorInv st → (destroy n1 st).overlayCount = 0) := by
  obtain ⟨hd, hs, hc, ho, hu, hr, hl, hci, htt, hpt, hpend, hint, hov⟩ :=
    destroy_releases n1 st
  refine ⟨?_, hd, hs, hc, ho, hu, hr, hl, hci, htt, ?_, hint, hov⟩
  · exact destroy_noop n2 _ hd hs hc ho hu hr hl hci htt hpend
  · intro h
    rw [hpt, h]

/-- C8 witness: the theorem applied to the freshly-constructed controller,
discharging the toast-absent and invariant hypotheses. -/
theorem c8_destroy_idempotent_witness :
    destroy 1 (destroy 0 Ctrl.initial) = destroy 0 Ctrl.initial ∧
    (destroy 0 Ctrl.initial).popupToast = none ∧
    (destroy 0 Ctrl.initial).indicatorRecomputeInterval = false ∧
    (destroy 0 Ctrl.initial).overlayCount = 0 := by
  obtain ⟨h1, _, _, _, _, _, _, _, _, _, hA, hB, hC⟩ :=
    c8_destroy_idempotent Ctrl.initial 0 1
  exact ⟨h1, hA rfl, hB (by decide), hC (by decide)⟩

/-! ### Claim C1 — `setSpeed` stores the clamped rounded rate; where it applies it -/

/-- `hideConstantIndicator` is the identity when no overlay exists
(the source returns early). -/
lemma hideCI_of_none (now : ℕ) (s : Ctrl) (h : s.constantIndicator = none) :
    hideConstantIndicator now s = s := by
  unfold hideConstantIndicator
  rw [if_pos (by rw [h]; rfl : s.constantIndicator.isNone = true)]

/-- The video a `setSpeed(speed, showInd, position)` call applies the rate
to: `this.indicatorPrimaryVideo || this.selectPrimaryVideo()` evaluated at
the point of application — after the store and after the
hide-if-just-disabled step (lines 806-823 of the source).  The `let`
prefix replicates `setSpeed` verbatim, so when a call just disabled a
showing indicator, `hideConstantIndicator` has already nulled the cached
primary and the heuristic primary is targeted instead. -/
def setSpeedActive (now : ℕ) (st0 : Ctrl) (p : Page) (speed : ℚ)
    (showInd : Bool) (position : String) : Option VideoId :=
  let roundedSpeed := round2 speed
  let st1 := { st0 with currentSpeed := clampSpeed roundedSpeed }
  let indicatorWasEnabled := st1.showConstantIndicator
  let st2 := { st1 with showConstantIndicator := showInd, indicatorPosition := position }
  let st3 :=
    if indicatorWasEnabled && !showInd then hidePopupToast (hideConstantIndicator now st2)
    else st2
  activeVideo st3 p

/-- `setSpeed` applies the clamped rate to its application-point active
video whenever that video is in the document and not live. -/
lemma setSpeed_applies (now : ℕ) (st : Ctrl) (p : Page) (r : ℚ) (showInd : Bool)
    (pos : String) (a : VideoId)
    (ha : setSpeedActive now st p r showInd pos = some a)
    (hdoc : (p.attrs a).inDoc = true)
    (hlive : isLiveVideo p a = false) :
    (setSpeed now st p r showInd pos).2.rate a = clampSpeed (round2 r) := by
  unfold setSpeed
  dsimp only
  split
  · next a2 ha2 =>
    have h2 : setSpeedActive now st p r showInd pos = some a2 := ha2
    rw [ha] at h2
    injection h2 with h3
    subst h3
    split
    · dsimp only
      rw [setRate_rate, if_pos rfl]
      split <;> simp
    · next hcond =>
      exact absurd (by rw [hdoc, hlive]; rfl) hcond
  · next ha2 =>
    have h2 : setSpeedActive now st p r showInd pos = none := ha2
    rw [ha] at h2
    cases h2

/-- C1 counterexample state: the overlay is showing on cached primary
video 0, while the selection heuristic prefers the larger video 1 of
`c6page` — reachable after a play-intent override (cf. C6). -/
def c1cst : Ctrl :=
  { Ctrl.initial with
    currentSpeed := 1
    indicatorPrimaryVideo := some 0
    constantIndicator := some 1
    overlayCount := 1
    updateHandlers := 1
    indicatorRecomputeInterval := true
    videos := [0, 1]
    videoListeners := [0, 1] }

/-- C1: counterexample.  The call `setSpeed(2, false, "top-left")` — a
perfectly ordinary call that turns the indicator off — is made while the
pre-call primary (the active video, 0) exists, is in the document and is
not live.  The claim says video 0's `playbackRate` becomes
`clamp(round(2,2), 0.1, 16) = 2` synchronously; in fact the call first
hides the overlay, which nulls the cached primary, so the rate 2 is
applied to the heuristic primary (video 1) and video 0's rate stays 1.
The stored TargetRate does become 2. -/
theorem c1_claim_counterexample :
    activeVideo c1cst c6page = some 0 ∧
    (c6page.attrs 0).inDoc = true ∧
    isLiveVideo c6page 0 = false ∧
    max (1/10 : ℚ) (min 16 ((⌊(2 : ℚ) * 100 + 1/2⌋ : ℚ) / 100)) = 2 ∧
    (setSpeed 0 c1cst c6page 2 false "top-left").2.rate 0 = 1 ∧
    (1 : ℚ) ≠ 2 ∧
    (setSpeed 0 c1cst c6page 2 false "top-left").2.rate 1 = 2 ∧
    (setSpeed 0 c1cst c6page 2 false "top-left").1.currentSpeed = 2 := by
  have hfl : (⌊(2 : ℚ) * 100 + 1/2⌋ : ℤ) = 200 := by
    rw [Int.floor_eq_iff]
    norm_num
  have hval : clampSpeed (round2 2) = 2 := by
    unfold clampSpeed round2 jsRound
    rw [hfl]
    rw [show ((200 : ℤ) : ℚ) / 100 = 2 by norm_num]
    rw [min_eq_right (by norm_num : (2 : ℚ) ≤ 16),
      max_eq_right (by norm_num : (1 : ℚ)/10 ≤ 2)]
  have hact : setSpeedActive 0 c1cst c6page 2 false "top-left" = some 1 := by
    unfold setSpeedActive activeVideo
    rw [c6page_select]
    decide
  have hr0 : (setSpeed 0 c1cst c6page 2 false "top-left").2.rate 0 = 1 := by
    unfold setSpeed activeVideo
    rw [c6page_select]
    decide
  have hr1 : (setSpeed 0 c1cst c6page 2 false "top-left").2.rate 1 = 2 := by
    rw [setSpeed_applies 0 c1cst c6page 2 false "top-left" 1 hact (by decide) (by decide)]
    exact hval
  have hcs : (setSpeed 0 c1cst c6page 2 false "top-left").1.currentSpeed = 2 := by
    rw [setSpeed_currentSpeed]
    exact hval
  exact ⟨rfl, by decide, by decide, hval, hr0, by norm_num, hr1, hcs⟩

/-- C1 (amended): for every call `setSpeed(r, show, pos)` the stored
TargetRate (`this.currentSpeed`, returned by `getCurrentSpeed()`) becomes
`max(0.1, min(16, Math.round(r*100)/100))` unconditionally; the video
whose `playbackRate` is set synchronously within the call — when it
exists, is contained in the document, and is not live — is the active
video at the point of application (`setSpeedActive`:
`indicatorPrimaryVideo || selectPrimaryVideo()` after the
hide-on-disable step).  For every call that does not just disable a
showing indicator — `show` true, or the indicator already disabled, or no
overlay present — that target is exactly the pre-call active video, as the
original claim stated; a call that disables a showing indicator first
nulls the cached primary, so the heuristic primary is targeted instead
(see the counterexample). -/
theorem c1_setSpeed_amended (now : ℕ) (st : Ctrl) (p : Page) (r : ℚ)
    (showInd : Bool) (pos : String) :
    (setSpeed now st p r showInd pos).1.currentSpeed
        = max (1/10) (min 16 ((⌊r * 100 + 1/2⌋ : ℚ) / 100)) ∧
    getCurrentSpeed (setSpeed now st p r showInd pos).1
        = max (1/10) (min 16 ((⌊r * 100 + 1/2⌋ : ℚ) / 100)) ∧
    (∀ a, setSpeedActive now st p r showInd pos = some a →
      (p.attrs a).inDoc = true → isLiveVideo p a = false →
      (setSpeed now st p r showInd pos).2.rate a
        = max (1/10) (min 16 ((⌊r * 100 + 1/2⌋ : ℚ) / 100))) ∧
    ((st.showConstantIndicator && !showInd) = false →
      setSpeedActive now st p r showInd pos = activeVideo st p) ∧
    (st.constantIndicator = none →
      setSpeedActive now st p r showInd pos = activeVideo st p) := by
  have hre : clampSpeed (round2 r) = max (1/10) (min 16 ((⌊r * 100 + 1/2⌋ : ℚ) / 100)) :=
    rfl
  refine ⟨?_, ?_, ?_, ?_, ?_⟩
  · rw [setSpeed_currentSpeed, hre]
  · unfold getCurrentSpeed
    rw [setSpeed_currentSpeed, hre]
  · intro a ha hdoc hlive
    rw [setSpeed_applies now st p r showInd pos a ha hdoc hlive, hre]
  · intro h
    unfold setSpeedActive
    dsimp only
    rw [h]
    rfl
  · intro h
    unfold setSpeedActive
    dsimp only
    split
    · rw [hideCI_of_none]
      · unfold activeVideo
        rw [hidePT_primary]
      · exact h
    · rfl

/-- C1 witness: a typical call (`show = true`) on a controller whose
cached primary video 0 is in the document and not live: the target is the
pre-call active video, the stored and applied rate is
`clamp(round(2.5, 2)) = 5/2`. -/
theorem c1_setSpeed_amended_witness :
    setSpeedActive 0 c1st c1page (5/2) true "top-left" = some 0 ∧
    (c1page.attrs 0).inDoc = true ∧
    isLiveVideo c1page 0 = false ∧
    (c1st.showConstantIndicator && !true) = false ∧
    setSpeedActive 0 c1st c1page (5/2) true "top-left" = activeVideo c1st c1page ∧
    (setSpeed 0 c1st c1page (5/2) true "top-left").2.rate 0
      = max (1/10) (min 16 ((⌊(5/2 : ℚ) * 100 + 1/2⌋ : ℚ) / 100)) ∧
    max (1/10 : ℚ) (min 16 ((⌊(5/2 : ℚ) * 100 + 1/2⌋ : ℚ) / 100)) = 5/2 := by
  have h1 : setSpeedActive 0 c1st c1page (5/2) true "top-left" = some 0 := by decide
  have h2 : (c1page.attrs 0).inDoc = true := rfl
  have h3 : isLiveVideo c1page 0 = false := rfl
  have h4 : (c1st.showConstantIndicator && !true) = false := rfl
  have hfloor : (⌊(5/2 : ℚ) * 100 + 1/2⌋ : ℤ) = 250 := by
    rw [Int.floor_eq_iff]
    norm_num
  have h := c1_setSpeed_amended 0 c1st c1page (5/2) true "top-left"
  refine ⟨h1, h2, h3, h4, h.2.2.2.1 h4, h.2.2.1 0 h1 h2 h3, ?_⟩
  rw [hfloor]
  norm_num

end SpeedTune
